import Mathlib

/-! CPPNotebook, OpenGL/Basics/Project 1: the triangle program

A shallow embedding of `OpenGL/Basics/Project 1/OpenGL/main.cpp`.

The program is a straight line of calls into GLFW / OpenGL followed by one
`while` loop and a teardown.  Its observable behaviour is the sequence of API
calls it issues and the value `main` returns, so the embedding is

* `Call F`   : one API call together with the value the library returned,
* `Env`      : everything the libraries decide (the handles they hand out and
               the successive readings of the window close flag),
* `main`     : the function from an environment to exit code and call trace.

`F` is the number type the `float` expressions are read in.  All definitions
are generic in it, so they run on `ℚ` and the geometry can be stated on `ℝ`.
-/

namespace CPPNotebook

/-! ## Data model -/

/-- A C pointer value. -/
abbrev Ptr := Nat

/-- The null pointer. -/
def NULL : Ptr := 0

/-- An OpenGL object name. -/
abbrev GLuint := Nat

/-- The preprocessor constants of `glad.h` / `glfw3.h` that occur as arguments.
Their numeric values are not part of this repository, so they stay symbolic.
`GL_COMPILE_STATUS` and `GL_LINK_STATUS` are the selectors of the two status
queries; the program uses neither. -/
inductive GLconst where
  | GLFW_CONTEXT_VERSION_MAJOR
  | GLFW_CONTEXT_VERSION_MINOR
  | GLFW_OPENGL_PROFILE
  | GLFW_OPENGL_CORE_PROFILE
  | GL_VERTEX_SHADER
  | GL_FRAGMENT_SHADER
  | GL_ARRAY_BUFFER
  | GL_STATIC_DRAW
  | GL_FLOAT
  | GL_FALSE
  | GL_COLOR_BUFFER_BIT
  | GL_TRIANGLES
  | GL_COMPILE_STATUS
  | GL_LINK_STATUS
  deriving DecidableEq, Repr

/-- The `int value` argument of `glfwWindowHint`: a number or a constant. -/
inductive HintValue where
  | num (n : Int)
  | sym (c : GLconst)
  deriving DecidableEq, Repr

/-- One call into the C++ runtime, GLFW, glad or OpenGL.  Arguments are in the
order of the C prototype; `ret` is the value the library returned; the list
argument of the `glGen*` calls is what the library wrote through the pointer,
the list argument of the `glDelete*` calls is what the pointer points to.

The last three constructors are entry points `main` never calls.  They are
part of the alphabet so that their absence from a trace is a statement about
the program and not about this type. -/
inductive Call (F : Type) where
  | glfwInit
  | glfwWindowHint (hint : GLconst) (value : HintValue)
  | glfwCreateWindow (width height : Int) (title : String) (monitor share : Ptr) (ret : Ptr)
  | cout (line : String)
  | glfwTerminate
  | glfwMakeContextCurrent (window : Ptr)
  | gladLoadGL
  | glViewport (x y width height : Int)
  | glCreateShader (kind : GLconst) (ret : GLuint)
  | glShaderSource (shader : GLuint) (count : Nat) (string : List String) (length : Ptr)
  | glCompileShader (shader : GLuint)
  | glCreateProgram (ret : GLuint)
  | glAttachShader (program shader : GLuint)
  | glLinkProgram (program : GLuint)
  | glDeleteShader (shader : GLuint)
  | glGenVertexArrays (n : Nat) (arrays : List GLuint)
  | glGenBuffers (n : Nat) (buffers : List GLuint)
  | glBindVertexArray (array : GLuint)
  | glBindBuffer (target : GLconst) (buffer : GLuint)
  | glBufferData (target : GLconst) (size : Nat) (data : List F) (usage : GLconst)
  | glVertexAttribPointer (index : Nat) (size : Nat) (ty : GLconst) (normalized : GLconst)
      (stride : Nat) (pointer : Nat)
  | glEnableVertexAttribArray (index : Nat)
  | glClearColor (red green blue alpha : F)
  | glClear (mask : GLconst)
  | glfwSwapBuffers (window : Ptr)
  | glfwWindowShouldClose (window : Ptr) (ret : Bool)
  | glUseProgram (program : GLuint)
  | glDrawArrays (mode : GLconst) (first : Int) (count : Int)
  | glfwPollEvents
  | glDeleteVertexArrays (n : Nat) (arrays : List GLuint)
  | glDeleteBuffers (n : Nat) (buffers : List GLuint)
  | glDeleteProgram (program : GLuint)
  | glfwDestroyWindow (window : Ptr)
  | glGetShaderiv (shader : GLuint) (pname : GLconst)
  | glGetProgramiv (program : GLuint) (pname : GLconst)
  | glBufferSubData (target : GLconst) (offset size : Nat) (data : List F)
  deriving DecidableEq, Repr

/-- What the libraries decide during one run: the value each creating call
returns and the successive readings of the close flag (`shouldClose k` is what
the call number `k` of `glfwWindowShouldClose` returns, counting from 0). -/
structure Env where
  window : Ptr
  vertexShader : GLuint
  fragmentShader : GLuint
  shaderProgram : GLuint
  VAO : GLuint
  VBO : GLuint
  shouldClose : Nat → Bool

/-! ## The program -/

/-- Source lines 7-12.  The C literal ends in an explicit NUL, which ends the
string `glShaderSource` reads (its `length` argument is `NULL`). -/
def vertexShaderSource : String :=
  "#version 330 core\n" ++
  "layout (location = 0) in vec3 aPos;\n" ++
  "void main()\n" ++
  "\x7b\n" ++
  "   gl_Position = vec4(aPos.x, aPos.y, aPos.z, 1.0);\n" ++
  "\x7d"

/-- Source lines 15-20. -/
def fragmentShaderSource : String :=
  "#version 330 core\n" ++
  "out vec4 FragColor;\n" ++
  "void main()\n" ++
  "\x7b\n" ++
  "   FragColor = vec4(0.8f, 0.3f, 0.02f, 1.0f);\n" ++
  "\x7d\n"

/-- The body of the vertex shader (source line 11):
`gl_Position = vec4(aPos.x, aPos.y, aPos.z, 1.0)`. -/
def vertexShaderMain {F : Type} [Field F] (aPos : F × F × F) : F × F × F × F :=
  (aPos.1, aPos.2.1, aPos.2.2, 1.0)

/-- Source lines 40-45: the `vertices` array.  `sqrt` is the square root of
the number type the expressions are read in. -/
def vertices {F : Type} [Field F] (sqrt : F → F) : List F :=
  [ -0.5, -0.5 * sqrt 3 / 3, 0.0,
    0.5, -0.5 * sqrt 3 / 3, 0.0,
    0.0, 0.5 * sqrt 3 * 2 / 3, 0.0 ]

/-- Source lines 40-45 read in `float` arithmetic.  `sqrt 3` is the `double`
that `sqrt(3)` returns and `fl` rounds a number to `float`: the cast
`float(...)` and every product and quotient are rounded; the literals are
floats already.  With `fl` the identity this is `vertices`. -/
def verticesRounded {F : Type} [Field F] (fl : F → F) (sqrt : F → F) : List F :=
  [ -0.5, fl (fl (-0.5 * fl (sqrt 3)) / 3), 0.0,
    0.5, fl (fl (-0.5 * fl (sqrt 3)) / 3), 0.0,
    0.0, fl (fl (fl (0.5 * fl (sqrt 3)) * 2) / 3), 0.0 ]

/-- The accuracy asked of a rounding to `float`: on magnitudes between 1/4 and
2, where all intermediate values of `vertices` lie, the relative error is at
most `2 ^ (-23)`.  Rounding to nearest in 24-bit precision has half of that. -/
def RoundsToFloat (fl : ℝ → ℝ) : Prop :=
  ∀ x : ℝ, 1 / 4 ≤ |x| → |x| ≤ 2 → |fl x - x| ≤ |x| / 2 ^ 23

/-- The value of `sizeof(float)` and `sizeof(GLfloat)`: both are 32-bit. -/
def sizeofFloat : Nat := 4

/-- The value of `sizeof(vertices)`: element count times element size. -/
def sizeofVertices {F : Type} [Field F] (sqrt : F → F) : Nat :=
  (vertices sqrt).length * sizeofFloat

/-- Source lines 27-37: initialisation and window hints. -/
def hints (F : Type) : List (Call F) :=
  [ .glfwInit,
    .glfwWindowHint .GLFW_CONTEXT_VERSION_MAJOR (.num 3),
    .glfwWindowHint .GLFW_CONTEXT_VERSION_MINOR (.num 3),
    .glfwWindowHint .GLFW_OPENGL_PROFILE (.sym .GLFW_OPENGL_CORE_PROFILE) ]

/-- Source line 48: the window is requested; the library answers `env.window`. -/
def createWindow (F : Type) (env : Env) : Call F :=
  .glfwCreateWindow 800 800 "Window Name" NULL NULL env.window

/-- Source lines 53-54: the statements of the `window == NULL` branch. -/
def failure (F : Type) : List (Call F) :=
  [ .cout "Failed to create GLFW window.", .glfwTerminate ]

/-- Source lines 59-65: context activation, loader, viewport. -/
def context (F : Type) (env : Env) : List (Call F) :=
  [ .glfwMakeContextCurrent env.window,
    .gladLoadGL,
    .glViewport 0 0 800 800 ]

/-- Source lines 68-86: the two shaders and the program. -/
def shaders (F : Type) (env : Env) : List (Call F) :=
  [ .glCreateShader .GL_VERTEX_SHADER env.vertexShader,
    .glShaderSource env.vertexShader 1 [vertexShaderSource] NULL,
    .glCompileShader env.vertexShader,
    .glCreateShader .GL_FRAGMENT_SHADER env.fragmentShader,
    .glShaderSource env.fragmentShader 1 [fragmentShaderSource] NULL,
    .glCompileShader env.fragmentShader,
    .glCreateProgram env.shaderProgram,
    .glAttachShader env.shaderProgram env.vertexShader,
    .glAttachShader env.shaderProgram env.fragmentShader,
    .glLinkProgram env.shaderProgram,
    .glDeleteShader env.vertexShader,
    .glDeleteShader env.fragmentShader ]

/-- Source lines 89-119: vertex array object, vertex buffer object, upload,
attribute descriptor, unbinding. -/
def geometry {F : Type} [Field F] (sqrt : F → F) (env : Env) : List (Call F) :=
  [ .glGenVertexArrays 1 [env.VAO],
    .glGenBuffers 1 [env.VBO],
    .glBindVertexArray env.VAO,
    .glBindBuffer .GL_ARRAY_BUFFER env.VBO,
    .glBufferData .GL_ARRAY_BUFFER (sizeofVertices sqrt) (vertices sqrt) .GL_STATIC_DRAW,
    .glVertexAttribPointer 0 3 .GL_FLOAT .GL_FALSE (3 * sizeofFloat) 0,
    .glEnableVertexAttribArray 0,
    .glBindBuffer .GL_ARRAY_BUFFER 0,
    .glBindVertexArray 0 ]

/-- Source lines 122-128: the clear and swap in front of the loop. -/
def firstFrame (F : Type) [Field F] (env : Env) : List (Call F) :=
  [ .glClearColor 0.07 0.13 0.17 1.0,
    .glClear .GL_COLOR_BUFFER_BIT,
    .glfwSwapBuffers env.window ]

/-- Source lines 133-145: the body of the `while` loop. -/
def loopBody (F : Type) [Field F] (env : Env) : List (Call F) :=
  [ .glClearColor 0.07 0.13 0.17 1.0,
    .glClear .GL_COLOR_BUFFER_BIT,
    .glUseProgram env.shaderProgram,
    .glBindVertexArray env.VAO,
    .glDrawArrays .GL_TRIANGLES 0 3,
    .glfwSwapBuffers env.window,
    .glfwPollEvents ]

/-- Source lines 131-146: the `while (!glfwWindowShouldClose(window))` loop,
started at reading number `k`.  Each unit of `fuel` pays for one evaluation of
the loop condition; `none` means the fuel ran out before the loop ended. -/
def renderLoop (F : Type) [Field F] (env : Env) : (fuel : Nat) → (k : Nat) → Option (List (Call F))
  | 0, _ => none
  | fuel + 1, k =>
    if !env.shouldClose k then
      (renderLoop F env fuel (k + 1)).map
        (fun rest => .glfwWindowShouldClose env.window false :: loopBody F env ++ rest)
    else
      some [.glfwWindowShouldClose env.window true]

/-- Source lines 149-157: cleanup. -/
def teardown (F : Type) (env : Env) : List (Call F) :=
  [ .glDeleteVertexArrays 1 [env.VAO],
    .glDeleteBuffers 1 [env.VBO],
    .glDeleteProgram env.shaderProgram,
    .glfwDestroyWindow env.window,
    .glfwTerminate ]

/-- Source lines 24-161: `main`.  The result is the returned `int` and the
calls issued, in order. -/
def main {F : Type} [Field F] (sqrt : F → F) (env : Env) (fuel : Nat) :
    Option (Int × List (Call F)) :=
  let boot := hints F ++ [createWindow F env]
  if env.window = NULL then
    some (-1, boot ++ failure F)
  else
    match renderLoop F env fuel 0 with
    | none => none
    | some frames =>
      some (0, boot ++ context F env ++ shaders F env ++ geometry sqrt env
                ++ firstFrame F env ++ frames ++ teardown F env)

/-! ## Reading the vertex data -/

/-- The three components of vertex `i` of tightly packed three-component
data: components `3 * i`, `3 * i + 1`, `3 * i + 2`. -/
def vertexAt {F : Type} [Zero F] (data : List F) (i : Nat) : F × F × F :=
  (data.getD (3 * i) 0, data.getD (3 * i + 1) 0, data.getD (3 * i + 2) 0)

/-- Squared Euclidean distance of two points. -/
def sqDist {F : Type} [Field F] (p q : F × F × F) : F :=
  (q.1 - p.1) ^ 2 + (q.2.1 - p.2.1) ^ 2 + (q.2.2 - p.2.2) ^ 2

/-- Signed area of the triangle `a b c` projected on the xy-plane; positive
when `a b c` turn counter-clockwise. -/
def signedArea {F : Type} [Field F] (a b c : F × F × F) : F :=
  ((b.1 - a.1) * (c.2.1 - a.2.1) - (c.1 - a.1) * (b.2.1 - a.2.1)) / 2

/-! ## Reading a call trace -/

/-- `n` is the index of the first reading of the close flag that is `true`. -/
def FirstTrueAt (f : Nat → Bool) (n : Nat) : Prop :=
  f n = true ∧ ∀ i < n, f i = false

instance (f : Nat → Bool) (n : Nat) : Decidable (FirstTrueAt f n) :=
  inferInstanceAs (Decidable (f n = true ∧ ∀ i < n, f i = false))

/-- The calls the loop issues when it runs `n` full iterations: `n` times a
close-flag query answered `false` followed by the loop body. -/
def loopFrames (F : Type) [Field F] (env : Env) (n : Nat) : List (Call F) :=
  (List.replicate n (Call.glfwWindowShouldClose env.window false :: loopBody F env)).flatten

/-- A draw call. -/
def Call.isDraw {F : Type} : Call F → Bool
  | .glDrawArrays _ _ _ => true
  | _ => false

/-- A buffer swap. -/
def Call.isSwap {F : Type} : Call F → Bool
  | .glfwSwapBuffers _ => true
  | _ => false

/-- An event poll. -/
def Call.isPoll {F : Type} : Call F → Bool
  | .glfwPollEvents => true
  | _ => false

/-- A clear of a buffer. -/
def Call.isClear {F : Type} : Call F → Bool
  | .glClear _ => true
  | _ => false

/-- A setting of the clear colour. -/
def Call.isClearColor {F : Type} : Call F → Bool
  | .glClearColor _ _ _ _ => true
  | _ => false

/-- A query of the window close flag. -/
def Call.isCloseQuery {F : Type} : Call F → Bool
  | .glfwWindowShouldClose _ _ => true
  | _ => false

/-- A context activation. -/
def Call.isContextActivation {F : Type} : Call F → Bool
  | .glfwMakeContextCurrent _ => true
  | _ => false

/-- The OpenGL function loader. -/
def Call.isLoader {F : Type} : Call F → Bool
  | .gladLoadGL => true
  | _ => false

/-- A call of an OpenGL entry point (the functions named `gl...`, as opposed to
the `glfw...` window functions, the loader and the console). -/
def Call.isGL {F : Type} : Call F → Bool
  | .glfwInit => false
  | .glfwWindowHint _ _ => false
  | .glfwCreateWindow _ _ _ _ _ _ => false
  | .cout _ => false
  | .glfwTerminate => false
  | .glfwMakeContextCurrent _ => false
  | .gladLoadGL => false
  | .glfwSwapBuffers _ => false
  | .glfwWindowShouldClose _ _ => false
  | .glfwPollEvents => false
  | .glfwDestroyWindow _ => false
  | _ => true

/-- A call of the teardown: deletion of a vertex array, a buffer or a program,
destruction of the window, termination of GLFW. -/
def Call.isTeardown {F : Type} : Call F → Bool
  | .glDeleteVertexArrays _ _ => true
  | .glDeleteBuffers _ _ => true
  | .glDeleteProgram _ => true
  | .glfwDestroyWindow _ => true
  | .glfwTerminate => true
  | _ => false

/-- A deletion of a program or of vertex arrays. -/
def Call.isProgramOrLayoutDelete {F : Type} : Call F → Bool
  | .glDeleteVertexArrays _ _ => true
  | .glDeleteProgram _ => true
  | _ => false

/-- A call that belongs to building shaders and programs. -/
def Call.isShaderBuild {F : Type} : Call F → Bool
  | .glCreateShader _ _ => true
  | .glShaderSource _ _ _ _ => true
  | .glCompileShader _ => true
  | .glCreateProgram _ => true
  | .glAttachShader _ _ => true
  | .glLinkProgram _ => true
  | .glDeleteShader _ => true
  | _ => false

/-- A query of a shader's or a program's status. -/
def Call.isStatusQuery {F : Type} : Call F → Bool
  | .glGetShaderiv _ _ => true
  | .glGetProgramiv _ _ => true
  | _ => false

/-- A call that writes the data store of a buffer. -/
def Call.isBufferWrite {F : Type} : Call F → Bool
  | .glBufferData _ _ _ _ => true
  | .glBufferSubData _ _ _ _ => true
  | _ => false

/-- A call that registers the attribute descriptor. -/
def Call.isAttribPointer {F : Type} : Call F → Bool
  | .glVertexAttribPointer _ _ _ _ _ _ => true
  | _ => false

/-- A call that registers or enables a vertex attribute. -/
def Call.isAttribRegistration {F : Type} : Call F → Bool
  | .glVertexAttribPointer _ _ _ _ _ _ => true
  | .glEnableVertexAttribArray _ => true
  | _ => false

/-- A binding of a buffer. -/
def Call.isBindBuffer {F : Type} : Call F → Bool
  | .glBindBuffer _ _ => true
  | _ => false

/-- The current program, vertex array and array buffer. -/
structure Bindings where
  currentProgram : GLuint
  vertexArray : GLuint
  arrayBuffer : GLuint
  deriving DecidableEq, Repr

/-- The bindings of a fresh context. -/
def Bindings.fresh : Bindings := ⟨0, 0, 0⟩

/-- The effect of one call on the bindings. -/
def step {F : Type} (s : Bindings) : Call F → Bindings
  | .glUseProgram pr => { s with currentProgram := pr }
  | .glBindVertexArray a => { s with vertexArray := a }
  | .glBindBuffer .GL_ARRAY_BUFFER b => { s with arrayBuffer := b }
  | .glDeleteVertexArrays _ arrays =>
    if s.vertexArray ∈ arrays then { s with vertexArray := 0 } else s
  | .glDeleteBuffers _ buffers =>
    if s.arrayBuffer ∈ buffers then { s with arrayBuffer := 0 } else s
  | _ => s

/-- The bindings after a sequence of calls. -/
def run {F : Type} (s : Bindings) (tr : List (Call F)) : Bindings :=
  tr.foldl step s

/-- The byte range, lower end included and upper end excluded, that fetching
vertex `i` reads through a descriptor of `size` float components with the
given `stride` and start `pointer`. -/
def fetchRange (size stride pointer : Nat) (i : Nat) : Nat × Nat :=
  (pointer + i * stride, pointer + i * stride + size * sizeofFloat)

/-- The calls of a run up to the loop, when the window is created. -/
def startup {F : Type} [Field F] (sqrt : F → F) (env : Env) : List (Call F) :=
  hints F ++ [createWindow F env] ++ context F env ++ shaders F env ++ geometry sqrt env
    ++ firstFrame F env

/-- The whole trace of a run whose window is created and whose loop runs `n`
iterations. -/
def successTrace {F : Type} [Field F] (sqrt : F → F) (env : Env) (n : Nat) : List (Call F) :=
  startup sqrt env ++ (loopFrames F env n ++ [Call.glfwWindowShouldClose env.window true])
    ++ teardown F env

/-- An environment in which window creation fails. -/
def envNoWindow : Env := ⟨NULL, 1, 2, 3, 1, 1, fun _ => false⟩

/-- An environment in which the window is created and the close flag reads
`false`, `false`, `true`, ... -/
def envTwoFrames : Env := ⟨7, 1, 2, 3, 1, 1, fun k => decide (2 ≤ k)⟩

/-- All ways to split a list at one of its elements: what precedes it, the
element, what follows it. -/
def splits {α : Type} : List α → List (List α × α × List α)
  | [] => []
  | x :: xs => ([], x, xs) :: (splits xs).map (fun t => (x :: t.1, t.2.1, t.2.2))

/-! ## Geometry of `vertices` -/

theorem sqrt3_sq : Real.sqrt 3 * Real.sqrt 3 = 3 :=
  Real.mul_self_sqrt (by norm_num)

theorem sqrt3_pos : 0 < Real.sqrt 3 :=
  Real.sqrt_pos.mpr (by norm_num)

theorem sqrt3_lt_two : Real.sqrt 3 < 2 := by
  nlinarith [sqrt3_sq, sqrt3_pos]

/-- Rounding a positive number known up to an interval. -/
theorem fl_pos_bounds (fl : ℝ → ℝ) (h : RoundsToFloat fl) (x lo hi lo' hi' : ℝ)
    (hlo : 1 / 4 ≤ lo) (hhi : hi ≤ 2) (h1 : lo ≤ x) (h2 : x ≤ hi)
    (hlo' : lo' ≤ lo - hi / 2 ^ 23) (hhi' : hi + hi / 2 ^ 23 ≤ hi') :
    lo' ≤ fl x ∧ fl x ≤ hi' := by
  have hx : 0 ≤ x := by linarith
  have := h x (by rw [abs_of_nonneg hx]; linarith) (by rw [abs_of_nonneg hx]; linarith)
  rw [abs_of_nonneg hx, abs_le] at this
  have hdiv : x / 2 ^ 23 ≤ hi / 2 ^ 23 := by
    apply div_le_div_of_nonneg_right h2; positivity
  constructor <;> linarith [this.1, this.2]

/-- Rounding a negative number known up to an interval. -/
theorem fl_neg_bounds (fl : ℝ → ℝ) (h : RoundsToFloat fl) (x lo hi lo' hi' : ℝ)
    (hlo : -2 ≤ lo) (hhi : hi ≤ -(1 / 4)) (h1 : lo ≤ x) (h2 : x ≤ hi)
    (hlo' : lo' ≤ lo + lo / 2 ^ 23) (hhi' : hi - lo / 2 ^ 23 ≤ hi') :
    lo' ≤ fl x ∧ fl x ≤ hi' := by
  have hx : x ≤ 0 := by linarith
  have := h x (by rw [abs_of_nonpos hx]; linarith) (by rw [abs_of_nonpos hx]; linarith)
  rw [abs_of_nonpos hx, abs_le] at this
  have hdiv : lo / 2 ^ 23 ≤ x / 2 ^ 23 := by
    apply div_le_div_of_nonneg_right h1; positivity
  constructor <;> linarith [this.1, this.2]

theorem sqrt3_bounds : (1.7320508 : ℝ) ≤ Real.sqrt 3 ∧ Real.sqrt 3 ≤ 1.7320509 := by
  constructor
  · rw [Real.le_sqrt' (by norm_num)]; norm_num
  · rw [Real.sqrt_le_left (by norm_num)]; norm_num

/-- The `float` the program uses for the square root of 3. -/
theorem rounded_sqrt3 (fl sq : ℝ → ℝ) (hfl : RoundsToFloat fl)
    (hsq : |sq 3 - Real.sqrt 3| ≤ Real.sqrt 3 / 2 ^ 23) :
    1.7320502 ≤ fl (sq 3) ∧ fl (sq 3) ≤ 1.7320515 := by
  obtain ⟨r1, r2⟩ := sqrt3_bounds
  rw [abs_le] at hsq
  have hd : Real.sqrt 3 / 2 ^ 23 ≤ 1.7320509 / 2 ^ 23 :=
    div_le_div_of_nonneg_right r2 (by positivity)
  have e1 : (1.7320505 : ℝ) ≤ 1.7320508 - 1.7320509 / 2 ^ 23 := by norm_num
  have e2 : (1.7320509 : ℝ) + 1.7320509 / 2 ^ 23 ≤ 1.7320512 := by norm_num
  exact fl_pos_bounds fl hfl (sq 3) 1.7320505 1.7320512 _ _ (by norm_num) (by norm_num)
    (by linarith [hsq.1]) (by linarith [hsq.2]) (by norm_num) (by norm_num)

/-- The y-coordinate of the two base vertices in `float`. -/
theorem rounded_base_height (fl : ℝ → ℝ) (hfl : RoundsToFloat fl) (s : ℝ)
    (h1 : 1.7320502 ≤ s) (h2 : s ≤ 1.7320515) :
    -0.2886754 ≤ fl (fl (-0.5 * s) / 3) ∧ fl (fl (-0.5 * s) / 3) ≤ -0.2886748 := by
  have a := fl_neg_bounds fl hfl (-0.5 * s) (-0.86602575) (-0.8660251) (-0.8660259) (-0.8660249)
    (by norm_num) (by norm_num) (by linarith) (by linarith) (by norm_num) (by norm_num)
  exact fl_neg_bounds fl hfl (fl (-0.5 * s) / 3) (-0.2886753) (-0.2886749) _ _
    (by norm_num) (by norm_num) (by linarith [a.1]) (by linarith [a.2]) (by norm_num)
    (by norm_num)

/-- The y-coordinate of the apex in `float`. -/
theorem rounded_apex_height (fl : ℝ → ℝ) (hfl : RoundsToFloat fl) (s : ℝ)
    (h1 : 1.7320502 ≤ s) (h2 : s ≤ 1.7320515) :
    0.5773497 ≤ fl (fl (fl (0.5 * s) * 2) / 3) ∧ fl (fl (fl (0.5 * s) * 2) / 3) ≤ 0.5773508 := by
  have b := fl_pos_bounds fl hfl (0.5 * s) 0.8660251 0.86602575 0.8660249 0.8660259
    (by norm_num) (by norm_num) (by linarith) (by linarith) (by norm_num) (by norm_num)
  have c := fl_pos_bounds fl hfl (fl (0.5 * s) * 2) 1.7320498 1.7320518 1.7320495 1.7320521
    (by norm_num) (by norm_num) (by linarith [b.1]) (by linarith [b.2]) (by norm_num)
    (by norm_num)
  exact fl_pos_bounds fl hfl (fl (fl (0.5 * s) * 2) / 3) 0.5773498 0.5773507 _ _
    (by norm_num) (by norm_num) (by linarith [c.1]) (by linarith [c.2]) (by norm_num)
    (by norm_num)

/-- A squared length `1/4 + dy ^ 2` with `dy` near `sqrt 3 / 2` has a root near 1. -/
theorem side_near_one (dy : ℝ) (h1 : 0.8660245 ≤ dy) (h2 : dy ≤ 0.8660262) :
    |Real.sqrt (1 / 4 + dy ^ 2) - 1| ≤ 1 / 10 ^ 6 := by
  rw [abs_le]
  constructor
  · have : (1 - 1 / 10 ^ 6 : ℝ) ≤ Real.sqrt (1 / 4 + dy ^ 2) := by
      rw [Real.le_sqrt' (by norm_num)]
      nlinarith
    linarith
  · have : Real.sqrt (1 / 4 + dy ^ 2) ≤ 1 + 1 / 10 ^ 6 := by
      rw [Real.sqrt_le_left (by norm_num)]
      nlinarith
    linarith

/-- Rounding down to a multiple of `2 ^ (-30)` is accurate enough. -/
theorem grid_rounds : RoundsToFloat (fun x : ℝ => (⌊x * 2 ^ 30⌋ : ℝ) / 2 ^ 30) := by
  intro x h1 _
  have hf1 : (⌊x * 2 ^ 30⌋ : ℝ) ≤ x * 2 ^ 30 := Int.floor_le _
  have hf2 : x * 2 ^ 30 < (⌊x * 2 ^ 30⌋ : ℝ) + 1 := Int.lt_floor_add_one _
  have hp : (0 : ℝ) < 2 ^ 30 := by positivity
  have e1 : (⌊x * 2 ^ 30⌋ : ℝ) / 2 ^ 30 ≤ x := by
    rw [div_le_iff₀ hp]; exact hf1
  have e2 : x - 1 / 2 ^ 30 < (⌊x * 2 ^ 30⌋ : ℝ) / 2 ^ 30 := by
    rw [lt_div_iff₀ hp, sub_mul, one_div, inv_mul_cancel₀ hp.ne']; linarith
  have e3 : (1 : ℝ) / 2 ^ 30 ≤ |x| / 2 ^ 23 := by
    have e4 : (1 : ℝ) / 2 ^ 30 ≤ 1 / 4 / 2 ^ 23 := by norm_num
    have e5 : (1 : ℝ) / 4 / 2 ^ 23 ≤ |x| / 2 ^ 23 :=
      div_le_div_of_nonneg_right h1 (by positivity)
    linarith
  show |(⌊x * 2 ^ 30⌋ : ℝ) / 2 ^ 30 - x| ≤ |x| / 2 ^ 23
  rw [abs_le]
  constructor <;> linarith

/-- Claim C2.  Read as real numbers, the three vertices of `vertices` are
(-0.5, -0.5*sqrt(3)/3, 0), (0.5, -0.5*sqrt(3)/3, 0), (0, 0.5*sqrt(3)*2/3, 0);
all have z = 0, the x-coordinate of their centroid is 0, and the three
pairwise side lengths all equal the base width 1.  Read in `float` arithmetic,
with any rounding `fl` of relative error at most `2 ^ (-23)` and any `double`
value `sq 3` of the square root that close to it, all z are still 0, the
centroid x is still 0, and each side length of the rounded triangle is within
`10 ^ (-6)` of 1. -/
theorem C2_vertices_equilateral :
    (vertices Real.sqrt =
      [ -0.5, -0.5 * Real.sqrt 3 / 3, 0,
        0.5, -0.5 * Real.sqrt 3 / 3, 0,
        0, 0.5 * Real.sqrt 3 * 2 / 3, 0 ] ∧
    (vertexAt (vertices Real.sqrt) 0).2.2 = 0 ∧
    (vertexAt (vertices Real.sqrt) 1).2.2 = 0 ∧
    (vertexAt (vertices Real.sqrt) 2).2.2 = 0 ∧
    ((vertexAt (vertices Real.sqrt) 0).1 + (vertexAt (vertices Real.sqrt) 1).1
      + (vertexAt (vertices Real.sqrt) 2).1) / 3 = 0 ∧
    Real.sqrt (sqDist (vertexAt (vertices Real.sqrt) 0) (vertexAt (vertices Real.sqrt) 1)) = 1 ∧
    Real.sqrt (sqDist (vertexAt (vertices Real.sqrt) 1) (vertexAt (vertices Real.sqrt) 2)) = 1 ∧
    Real.sqrt (sqDist (vertexAt (vertices Real.sqrt) 2) (vertexAt (vertices Real.sqrt) 0)) = 1) ∧
    (∀ fl sq : ℝ → ℝ, RoundsToFloat fl → |sq 3 - Real.sqrt 3| ≤ Real.sqrt 3 / 2 ^ 23 →
    (vertexAt (verticesRounded fl sq) 0).2.2 = 0 ∧
    (vertexAt (verticesRounded fl sq) 1).2.2 = 0 ∧
    (vertexAt (verticesRounded fl sq) 2).2.2 = 0 ∧
    ((vertexAt (verticesRounded fl sq) 0).1 + (vertexAt (verticesRounded fl sq) 1).1
      + (vertexAt (verticesRounded fl sq) 2).1) / 3 = 0 ∧
    |Real.sqrt (sqDist (vertexAt (verticesRounded fl sq) 0) (vertexAt (verticesRounded fl sq) 1))
      - 1| ≤ 1 / 10 ^ 6 ∧
    |Real.sqrt (sqDist (vertexAt (verticesRounded fl sq) 1) (vertexAt (verticesRounded fl sq) 2))
      - 1| ≤ 1 / 10 ^ 6 ∧
    |Real.sqrt (sqDist (vertexAt (verticesRounded fl sq) 2) (vertexAt (verticesRounded fl sq) 0))
      - 1| ≤ 1 / 10 ^ 6) := by
  have h3 := sqrt3_sq
  refine ⟨⟨?_, ?_, ?_, ?_, ?_, ?_, ?_, ?_⟩, ?_⟩
  · simp [vertices]; norm_num
  · simp [vertexAt, vertices]; norm_num
  · simp [vertexAt, vertices]; norm_num
  · simp [vertexAt, vertices]; norm_num
  · simp [vertexAt, vertices]; norm_num
  · have : sqDist (vertexAt (vertices Real.sqrt) 0) (vertexAt (vertices Real.sqrt) 1) = 1 := by
      simp [sqDist, vertexAt, vertices]; norm_num
    rw [this, Real.sqrt_one]
  · have : sqDist (vertexAt (vertices Real.sqrt) 1) (vertexAt (vertices Real.sqrt) 2) = 1 := by
      simp [sqDist, vertexAt, vertices]; nlinarith [h3]
    rw [this, Real.sqrt_one]
  · have : sqDist (vertexAt (vertices Real.sqrt) 2) (vertexAt (vertices Real.sqrt) 0) = 1 := by
      simp [sqDist, vertexAt, vertices]; nlinarith [h3]
    rw [this, Real.sqrt_one]
  · intro fl sq hfl hsq
    obtain ⟨s1, s2⟩ := rounded_sqrt3 fl sq hfl hsq
    obtain ⟨a1, a2⟩ := rounded_base_height fl hfl (fl (sq 3)) s1 s2
    obtain ⟨b1, b2⟩ := rounded_apex_height fl hfl (fl (sq 3)) s1 s2
    have hside := side_near_one
      (fl (fl (fl (0.5 * fl (sq 3)) * 2) / 3) - fl (fl (-0.5 * fl (sq 3)) / 3))
      (by linarith) (by linarith)
    refine ⟨?_, ?_, ?_, ?_, ?_, ?_, ?_⟩
    · simp [vertexAt, verticesRounded]; norm_num
    · simp [vertexAt, verticesRounded]; norm_num
    · simp [vertexAt, verticesRounded]; norm_num
    · simp [vertexAt, verticesRounded]; norm_num
    · have : sqDist (vertexAt (verticesRounded fl sq) 0) (vertexAt (verticesRounded fl sq) 1)
          = 1 := by
        simp [sqDist, vertexAt, verticesRounded]; norm_num
      rw [this, Real.sqrt_one]; norm_num
    · have : sqDist (vertexAt (verticesRounded fl sq) 1) (vertexAt (verticesRounded fl sq) 2)
          = 1 / 4 +
            (fl (fl (fl (0.5 * fl (sq 3)) * 2) / 3) - fl (fl (-0.5 * fl (sq 3)) / 3)) ^ 2 := by
        simp [sqDist, vertexAt, verticesRounded]; ring
      rw [this]; exact hside
    · have : sqDist (vertexAt (verticesRounded fl sq) 2) (vertexAt (verticesRounded fl sq) 0)
          = 1 / 4 +
            (fl (fl (fl (0.5 * fl (sq 3)) * 2) / 3) - fl (fl (-0.5 * fl (sq 3)) / 3)) ^ 2 := by
        simp [sqDist, vertexAt, verticesRounded]; ring
      rw [this]; exact hside

/-- Claim C2 with the rounding that cuts a number down to a multiple of
`2 ^ (-30)` and the exact square root: the side lengths of the rounded
triangle are within `10 ^ (-6)` of 1. -/
theorem C2_vertices_equilateral_witness :
    RoundsToFloat (fun x : ℝ => (⌊x * 2 ^ 30⌋ : ℝ) / 2 ^ 30) ∧
    |Real.sqrt 3 - Real.sqrt 3| ≤ Real.sqrt 3 / 2 ^ 23 ∧
    Real.sqrt (sqDist (vertexAt (vertices Real.sqrt) 1) (vertexAt (vertices Real.sqrt) 2)) = 1 ∧
    |Real.sqrt (sqDist
        (vertexAt (verticesRounded (fun x : ℝ => (⌊x * 2 ^ 30⌋ : ℝ) / 2 ^ 30) Real.sqrt) 1)
        (vertexAt (verticesRounded (fun x : ℝ => (⌊x * 2 ^ 30⌋ : ℝ) / 2 ^ 30) Real.sqrt) 2))
      - 1| ≤ 1 / 10 ^ 6 := by
  have hs : |Real.sqrt 3 - Real.sqrt 3| ≤ Real.sqrt 3 / 2 ^ 23 := by
    rw [sub_self, abs_zero]
    exact div_nonneg (Real.sqrt_nonneg 3) (by positivity)
  have h := C2_vertices_equilateral.2 (fun x : ℝ => (⌊x * 2 ^ 30⌋ : ℝ) / 2 ^ 30) Real.sqrt
    grid_rounds hs
  exact ⟨grid_rounds, hs, C2_vertices_equilateral.1.2.2.2.2.2.2.1, h.2.2.2.2.2.1⟩

/-- With the identity as rounding, the `float` reading is the exact one. -/
theorem verticesRounded_id {F : Type} [Field F] (sqrt : F → F) :
    verticesRounded (fun x => x) sqrt = vertices sqrt := rfl

/-- Claim C10.  Read as real numbers, every component of `vertices` lies
strictly between -1 and 1; the position the vertex shader computes for each of
the three vertices has w = 1 and x, y, z strictly between -w and w; and the
vertices in array order have signed area sqrt(3)/4, which is positive. -/
theorem C10_inside_clip_volume_ccw :
    (∀ c ∈ vertices Real.sqrt, -1 < c ∧ c < 1) ∧
    (∀ i < 3,
      (vertexShaderMain (vertexAt (vertices Real.sqrt) i)).2.2.2 = 1 ∧
      (vertexShaderMain (vertexAt (vertices Real.sqrt) i)).1 = (vertexAt (vertices Real.sqrt) i).1 ∧
      (vertexShaderMain (vertexAt (vertices Real.sqrt) i)).2.1 = (vertexAt (vertices Real.sqrt) i).2.1 ∧
      (vertexShaderMain (vertexAt (vertices Real.sqrt) i)).2.2.1 = (vertexAt (vertices Real.sqrt) i).2.2 ∧
      -(vertexShaderMain (vertexAt (vertices Real.sqrt) i)).2.2.2
          < (vertexShaderMain (vertexAt (vertices Real.sqrt) i)).1 ∧
      (vertexShaderMain (vertexAt (vertices Real.sqrt) i)).1
          < (vertexShaderMain (vertexAt (vertices Real.sqrt) i)).2.2.2 ∧
      -(vertexShaderMain (vertexAt (vertices Real.sqrt) i)).2.2.2
          < (vertexShaderMain (vertexAt (vertices Real.sqrt) i)).2.1 ∧
      (vertexShaderMain (vertexAt (vertices Real.sqrt) i)).2.1
          < (vertexShaderMain (vertexAt (vertices Real.sqrt) i)).2.2.2 ∧
      -(vertexShaderMain (vertexAt (vertices Real.sqrt) i)).2.2.2
          < (vertexShaderMain (vertexAt (vertices Real.sqrt) i)).2.2.1 ∧
      (vertexShaderMain (vertexAt (vertices Real.sqrt) i)).2.2.1
          < (vertexShaderMain (vertexAt (vertices Real.sqrt) i)).2.2.2) ∧
    signedArea (vertexAt (vertices Real.sqrt) 0) (vertexAt (vertices Real.sqrt) 1)
        (vertexAt (vertices Real.sqrt) 2) = Real.sqrt 3 / 4 ∧
    0 < signedArea (vertexAt (vertices Real.sqrt) 0) (vertexAt (vertices Real.sqrt) 1)
        (vertexAt (vertices Real.sqrt) 2) := by
  have hp := sqrt3_pos
  have h2 := sqrt3_lt_two
  have harea : signedArea (vertexAt (vertices Real.sqrt) 0) (vertexAt (vertices Real.sqrt) 1)
      (vertexAt (vertices Real.sqrt) 2) = Real.sqrt 3 / 4 := by
    simp [signedArea, vertexAt, vertices]; ring
  refine ⟨?_, ?_, harea, ?_⟩
  · intro c hc
    simp only [vertices, List.mem_cons, List.mem_singleton, List.not_mem_nil, or_false] at hc
    rcases hc with h | h | h | h | h | h | h | h | h <;> subst h <;>
      constructor <;> norm_num <;> linarith
  · intro i hi
    interval_cases i <;> simp only [vertexShaderMain, vertexAt, vertices, List.getD_cons_zero,
      List.getD_cons_succ, Nat.reduceMul, Nat.reduceAdd] <;>
      (refine ⟨?_, ?_, ?_, ?_, ?_, ?_, ?_, ?_, ?_, ?_⟩ <;> norm_num <;> linarith)
  · rw [harea]; positivity

/-! ## Splitting lists at an occurrence -/

/-- An occurrence of a `p`-element in `l1 ++ l2` lies in `l2` when `l1` has no
`p`-element. -/
theorem split_skip {α : Type} (p : α → Bool) :
    ∀ (l1 l2 pre : List α) (c : α) (post : List α),
      (∀ x ∈ l1, p x = false) → p c = true → l1 ++ l2 = pre ++ c :: post →
      ∃ m, pre = l1 ++ m ∧ l2 = m ++ c :: post := by
  intro l1
  induction l1 with
  | nil => intro l2 pre c post _ _ h; exact ⟨pre, rfl, by simpa using h⟩
  | cons x l1 ih =>
    intro l2 pre c post hfree hc h
    cases pre with
    | nil =>
      simp only [List.cons_append, List.nil_append, List.cons.injEq] at h
      have := hfree x (List.mem_cons_self _ _)
      rw [h.1, hc] at this
      exact absurd this (by simp)
    | cons y pre =>
      simp only [List.cons_append, List.cons.injEq] at h
      obtain ⟨m, hm1, hm2⟩ := ih l2 pre c post
        (fun z hz => hfree z (List.mem_cons_of_mem _ hz)) hc h.2
      exact ⟨m, by rw [h.1, hm1]; rfl, hm2⟩

/-- An occurrence of a `p`-element in `l1 ++ l2` lies in `l1` when `l2` has no
`p`-element. -/
theorem split_within {α : Type} (p : α → Bool) :
    ∀ (pre l1 l2 : List α) (c : α) (post : List α),
      (∀ x ∈ l2, p x = false) → p c = true → l1 ++ l2 = pre ++ c :: post →
      ∃ m, l1 = pre ++ c :: m ∧ post = m ++ l2 := by
  intro pre
  induction pre with
  | nil =>
    intro l1 l2 c post hfree hc h
    cases l1 with
    | nil =>
      simp only [List.nil_append] at h
      have := hfree c (by rw [h]; exact List.mem_cons_self _ _)
      rw [hc] at this
      exact absurd this (by simp)
    | cons x l1 =>
      simp only [List.cons_append, List.nil_append, List.cons.injEq] at h
      exact ⟨l1, by rw [h.1]; rfl, h.2.symm⟩
  | cons y pre ih =>
    intro l1 l2 c post hfree hc h
    cases l1 with
    | nil =>
      simp only [List.nil_append] at h
      have := hfree c (by rw [h]; simp)
      rw [hc] at this
      exact absurd this (by simp)
    | cons x l1 =>
      simp only [List.cons_append, List.cons.injEq] at h
      obtain ⟨m, hm1, hm2⟩ := ih l1 l2 c post hfree hc h.2
      exact ⟨m, by rw [h.1, hm1]; rfl, hm2⟩

/-- When `d` is the only `p`-element of `l1 ++ d :: l2`, every split of that
list at a `p`-element is the split at `d`. -/
theorem split_unique {α : Type} (p : α → Bool) (l1 l2 pre post : List α) (d c : α)
    (h1 : ∀ x ∈ l1, p x = false) (h2 : ∀ x ∈ l2, p x = false) (hc : p c = true)
    (h : l1 ++ d :: l2 = pre ++ c :: post) : pre = l1 ∧ c = d ∧ post = l2 := by
  obtain ⟨m, hm1, hm2⟩ := split_skip p l1 (d :: l2) pre c post h1 hc h
  cases m with
  | nil =>
    simp only [List.nil_append, List.cons.injEq] at hm2
    exact ⟨by simpa using hm1, hm2.1.symm, hm2.2.symm⟩
  | cons y m =>
    simp only [List.cons_append, List.cons.injEq] at hm2
    have := h2 c (by rw [hm2.2]; simp)
    rw [hc] at this
    exact absurd this (by simp)

/-- When `d` is the first `p`-element of `l1 ++ d :: l2`, the split of that list
at its first `p`-element is the split at `d`. -/
theorem split_first {α : Type} (p : α → Bool) (l1 l2 pre post : List α) (d c : α)
    (h1 : ∀ x ∈ l1, p x = false) (h2 : ∀ x ∈ pre, p x = false) (hd : p d = true)
    (hc : p c = true) (h : l1 ++ d :: l2 = pre ++ c :: post) :
    pre = l1 ∧ c = d ∧ post = l2 := by
  obtain ⟨m, hm1, hm2⟩ := split_skip p l1 (d :: l2) pre c post h1 hc h
  cases m with
  | nil =>
    simp only [List.nil_append, List.cons.injEq] at hm2
    exact ⟨by simpa using hm1, hm2.1.symm, hm2.2.symm⟩
  | cons y m =>
    simp only [List.cons_append, List.cons.injEq] at hm2
    have := h2 d (by rw [hm1, hm2.1]; simp)
    rw [hd] at this
    exact absurd this (by simp)

/-- A split of `n` copies of `X` falls inside one of the copies. -/
theorem split_replicate {α : Type} (X : List α) :
    ∀ (n : Nat) (pre : List α) (c : α) (post : List α),
      (List.replicate n X).flatten = pre ++ c :: post →
      ∃ k a b, k < n ∧ X = a ++ c :: b ∧ pre = (List.replicate k X).flatten ++ a ∧
        post = b ++ (List.replicate (n - k - 1) X).flatten := by
  intro n
  induction n with
  | zero => intro pre c post h; simp at h
  | succ n ih =>
    intro pre c post h
    rw [List.replicate_succ, List.flatten_cons, List.append_eq_append_iff] at h
    rcases h with ⟨a', h1, h2⟩ | ⟨c', h1, h2⟩
    · obtain ⟨k, a, b, hk, hX, hpre, hpost⟩ := ih a' c post h2
      refine ⟨k + 1, a, b, by omega, hX, ?_, ?_⟩
      · rw [h1, hpre, List.replicate_succ, List.flatten_cons, List.append_assoc]
      · rw [hpost]; congr 3; omega
    · cases c' with
      | nil =>
        simp only [List.nil_append] at h2
        simp only [List.append_nil] at h1
        obtain ⟨k, a, b, hk, hX, hpre, hpost⟩ := ih [] c post h2.symm
        refine ⟨k + 1, a, b, by omega, hX, ?_, ?_⟩
        · rw [List.replicate_succ, List.flatten_cons, List.append_assoc, ← hpre, h1]; simp
        · rw [hpost]; congr 3; omega
      | cons y c' =>
        simp only [List.cons_append, List.cons.injEq] at h2
        refine ⟨0, pre, c', by omega, ?_, by simp, ?_⟩
        · rw [h1, h2.1]
        · rw [h2.2]; simp

/-! ## The bindings along a trace -/

theorem run_nil {F : Type} (s : Bindings) : run s ([] : List (Call F)) = s := rfl

theorem run_cons {F : Type} (s : Bindings) (c : Call F) (tr : List (Call F)) :
    run s (c :: tr) = run (step s c) tr := rfl

theorem run_append {F : Type} (s : Bindings) (l1 l2 : List (Call F)) :
    run s (l1 ++ l2) = run (run s l1) l2 := by
  simp [run, List.foldl_append]

/-! ## The shape of the trace -/

theorem loopFrames_zero (F : Type) [Field F] (env : Env) : loopFrames F env 0 = [] := rfl

theorem loopFrames_succ (F : Type) [Field F] (env : Env) (n : Nat) :
    loopFrames F env (n + 1) =
      (Call.glfwWindowShouldClose env.window false :: loopBody F env) ++ loopFrames F env n := rfl

theorem mem_loopFrames {F : Type} [Field F] {env : Env} {n : Nat} {c : Call F}
    (h : c ∈ loopFrames F env n) :
    c ∈ Call.glfwWindowShouldClose env.window false :: loopBody F env := by
  simp only [loopFrames, List.mem_flatten, List.mem_replicate] at h
  obtain ⟨l, ⟨_, hl⟩, hc⟩ := h
  rw [hl] at hc
  exact hc

theorem countP_loopFrames {F : Type} [Field F] (p : Call F → Bool) (env : Env) (n : Nat) :
    (loopFrames F env n).countP p =
      n * (Call.glfwWindowShouldClose env.window false :: loopBody F env).countP p := by
  induction n with
  | zero => simp [loopFrames_zero]
  | succ n ih => rw [loopFrames_succ, List.countP_append, ih]; ring

/-- The loop, started at reading `k`, with `n` readings `false` and then one
reading `true`, and fuel for more than `n` readings, runs `n` iterations and
ends. -/
theorem renderLoop_eq (F : Type) [Field F] (env : Env) :
    ∀ (n fuel k : Nat),
      (∀ i < n, env.shouldClose (k + i) = false) → env.shouldClose (k + n) = true →
      n < fuel →
      renderLoop F env fuel k =
        some (loopFrames F env n ++ [Call.glfwWindowShouldClose env.window true]) := by
  intro n
  induction n with
  | zero =>
    intro fuel k _ ht hf
    obtain ⟨f, rfl⟩ : ∃ f, fuel = f + 1 := ⟨fuel - 1, by omega⟩
    simp only [Nat.add_zero] at ht
    simp [renderLoop, ht, loopFrames_zero]
  | succ n ih =>
    intro fuel k hfalse ht hf
    obtain ⟨f, rfl⟩ : ∃ f, fuel = f + 1 := ⟨fuel - 1, by omega⟩
    have h0 : env.shouldClose k = false := by simpa using hfalse 0 (by omega)
    have hrec := ih f (k + 1)
      (fun i hi => by have := hfalse (i + 1) (by omega); rwa [show k + 1 + i = k + (i + 1) by omega])
      (by rwa [show k + 1 + n = k + (n + 1) by omega]) (by omega)
    simp [renderLoop, h0, hrec, loopFrames_succ]

theorem main_eq {F : Type} [Field F] (sqrt : F → F) (env : Env) (n fuel : Nat)
    (hw : env.window ≠ NULL) (hn : FirstTrueAt env.shouldClose n) (hf : n < fuel) :
    main sqrt env fuel = some (0, successTrace sqrt env n) := by
  have hloop := renderLoop_eq F env n fuel 0
    (fun i hi => by simpa using hn.2 i hi) (by simpa using hn.1) hf
  simp [main, hw, hloop, successTrace, startup]

theorem forall_mem_loopFrames {F : Type} [Field F] {env : Env} {P : Call F → Prop}
    (h : ∀ c ∈ Call.glfwWindowShouldClose env.window false :: loopBody F env, P c) (n : Nat) :
    ∀ c ∈ loopFrames F env n, P c :=
  fun c hc => h c (mem_loopFrames hc)

/-- A Boolean check over a list that holds of no element. -/
theorem not_of_all {α : Type} (p : α → Bool) (l : List α)
    (h : l.all (fun c => !p c) = true) : ∀ c ∈ l, p c = false := by
  intro c hc
  have := List.all_eq_true.mp h c hc
  simpa using this

/-- A property of the startup calls, of the calls of one loop iteration and of
the closing calls is a property of every call of a successful run. -/
theorem forall_mem_successTrace {F : Type} [Field F] (sqrt : F → F) (env : Env) (n : Nat)
    (P : Call F → Prop) (h1 : ∀ c ∈ startup sqrt env, P c)
    (h2 : ∀ c ∈ Call.glfwWindowShouldClose env.window false :: loopBody F env, P c)
    (h3 : ∀ c ∈ Call.glfwWindowShouldClose env.window true :: teardown F env, P c) :
    ∀ c ∈ successTrace sqrt env n, P c := by
  intro c hc
  rw [successTrace, List.mem_append, List.mem_append, List.mem_append] at hc
  rcases hc with (hc | hc | hc) | hc
  · exact h1 c hc
  · exact forall_mem_loopFrames h2 n c hc
  · exact h3 c (by rw [List.mem_singleton] at hc; rw [hc]; exact List.mem_cons_self _ _)
  · exact h3 c (List.mem_cons_of_mem _ hc)

/-- Counting in a successful run: startup, `n` iterations, closing calls. -/
theorem countP_successTrace {F : Type} [Field F] (p : Call F → Bool) (sqrt : F → F)
    (env : Env) (n : Nat) :
    (successTrace sqrt env n).countP p =
      (startup sqrt env).countP p +
        n * (Call.glfwWindowShouldClose env.window false :: loopBody F env).countP p +
        (Call.glfwWindowShouldClose env.window true :: teardown F env).countP p := by
  simp only [successTrace, List.countP_append, countP_loopFrames, List.countP_cons,
    List.countP_nil]
  omega

/-- A reading `true` is preceded by a first reading `true`. -/
theorem exists_firstTrueAt (f : Nat → Bool) (n : Nat) (h : f n = true) :
    ∃ m, m ≤ n ∧ FirstTrueAt f m := by
  classical
  have hex : ∃ k, f k = true := ⟨n, h⟩
  refine ⟨Nat.find hex, Nat.find_le h, Nat.find_spec hex, ?_⟩
  intro i hi
  have := Nat.find_min hex hi
  simpa using this

theorem mem_splits {α : Type} :
    ∀ (pre : List α) (l : List α) (c : α) (post : List α),
      l = pre ++ c :: post → (pre, c, post) ∈ splits l := by
  intro pre
  induction pre with
  | nil => intro l c post h; subst h; simp [splits]
  | cons y pre ih =>
    intro l c post h
    subst h
    simp only [List.cons_append, splits, List.mem_cons, List.mem_map]
    exact Or.inr ⟨(pre, c, post), ih _ c post rfl, rfl⟩

/-- Every draw call of a successful run is the draw call of some loop
iteration `k`: what precedes it is the startup, `k` full iterations, and the
first five calls of iteration `k`. -/
theorem draw_split {F : Type} [Field F] (sqrt : F → F) (env : Env) (n : Nat)
    (pre : List (Call F)) (c : Call F) (post : List (Call F))
    (h : successTrace sqrt env n = pre ++ c :: post) (hc : c.isDraw = true) :
    ∃ k, k < n ∧ c = Call.glDrawArrays .GL_TRIANGLES 0 3 ∧
      pre = startup sqrt env ++ loopFrames F env k ++
        [ Call.glfwWindowShouldClose env.window false,
          Call.glClearColor 0.07 0.13 0.17 1.0,
          Call.glClear .GL_COLOR_BUFFER_BIT,
          Call.glUseProgram env.shaderProgram,
          Call.glBindVertexArray env.VAO ] := by
  rw [successTrace, List.append_assoc, List.append_assoc] at h
  obtain ⟨m, hm1, hm2⟩ := split_skip Call.isDraw _ _ pre c post
    (not_of_all Call.isDraw (startup sqrt env) rfl) hc h
  obtain ⟨m', hm3, _⟩ := split_within Call.isDraw m _ _ c post
    (by simp [teardown, Call.isDraw]) hc hm2
  obtain ⟨k, a, b, hk, hX, ha, _⟩ := split_replicate _ n m c m' hm3
  have hu := split_unique Call.isDraw
    [ Call.glfwWindowShouldClose env.window false,
      Call.glClearColor (0.07 : F) 0.13 0.17 1.0,
      Call.glClear .GL_COLOR_BUFFER_BIT,
      Call.glUseProgram env.shaderProgram,
      Call.glBindVertexArray env.VAO ]
    [ Call.glfwSwapBuffers env.window, Call.glfwPollEvents ] a b
    (Call.glDrawArrays .GL_TRIANGLES 0 3) c
    (by simp [Call.isDraw]) (by simp [Call.isDraw]) hc (by rw [← hX]; simp [loopBody])
  refine ⟨k, hk, hu.2.1, ?_⟩
  rw [hm1, ha, hu.1, List.append_assoc]
  rfl


theorem filter_loopFrames {F : Type} [Field F] (p : Call F → Bool) (env : Env)
    (h : ∀ c ∈ Call.glfwWindowShouldClose env.window false :: loopBody F env, p c = false)
    (n : Nat) : (loopFrames F env n).filter p = [] := by
  rw [List.filter_eq_nil_iff]
  intro c hc
  simpa using forall_mem_loopFrames (P := fun c => p c = false) h n c hc

/-- A split of a successful trace at a call of a kind that occurs only in the
geometry setup is a split of the geometry setup. -/
theorem geometry_split {F : Type} [Field F] (p : Call F → Bool) (sqrt : F → F) (env : Env)
    (n : Nat) (pre : List (Call F)) (c : Call F) (post : List (Call F))
    (h1 : ∀ x ∈ hints F ++ [createWindow F env] ++ context F env ++ shaders F env, p x = false)
    (h2 : ∀ x ∈ firstFrame F env, p x = false)
    (h3 : ∀ x ∈ Call.glfwWindowShouldClose env.window false :: loopBody F env, p x = false)
    (h4 : ∀ x ∈ Call.glfwWindowShouldClose env.window true :: teardown F env, p x = false)
    (h : successTrace sqrt env n = pre ++ c :: post) (hc : p c = true) :
    ∃ m m', geometry sqrt env = m ++ c :: m' ∧
      pre = hints F ++ [createWindow F env] ++ context F env ++ shaders F env ++ m := by
  have hsplit : successTrace sqrt env n =
      (hints F ++ [createWindow F env] ++ context F env ++ shaders F env) ++
        (geometry sqrt env ++ (firstFrame F env ++ loopFrames F env n ++
          Call.glfwWindowShouldClose env.window true :: teardown F env)) := by
    simp [successTrace, startup]
  rw [hsplit] at h
  obtain ⟨m, hm1, hm2⟩ := split_skip p _ _ pre c post h1 hc h
  obtain ⟨m', hm3, _⟩ := split_within p m _ _ c post
    (by
      intro x hx
      rw [List.mem_append, List.mem_append] at hx
      rcases hx with (hx | hx) | hx
      · exact h2 x hx
      · exact forall_mem_loopFrames (P := fun c => p c = false) h3 n x hx
      · exact h4 x hx) hc hm2
  exact ⟨m, m', hm3, hm1⟩

/-- The bindings after the calls that precede the geometry setup are those of
a fresh context. -/
theorem run_before_geometry (F : Type) [Field F] (env : Env) :
    run Bindings.fresh (hints F ++ [createWindow F env] ++ context F env ++ shaders F env)
      = Bindings.fresh := by
  rfl


/-- Claim C1.  `main` as a function of the window handle and the close-flag
readings: when the window is created and some reading of the close flag is
`true`, `main` returns 0 (for every fuel that covers that reading); when
`glfwCreateWindow` returns `NULL`, `main` returns -1 and the trace is the
initialisation, the failed creation, the console message and `glfwTerminate`,
in which no call is a context activation, the loader, an OpenGL call, a buffer
swap or an event poll.  The value returned is 0 only with a window and -1 only
without. -/
theorem C1_exit_codes {F : Type} [Field F] (sqrt : F → F) (env : Env) :
    (env.window ≠ NULL → ∀ n, env.shouldClose n = true → ∀ fuel, n < fuel →
      ∃ tr, main sqrt env fuel = some (0, tr)) ∧
    (env.window = NULL → ∀ fuel,
      main sqrt env fuel = some (-1,
        [ Call.glfwInit,
          Call.glfwWindowHint .GLFW_CONTEXT_VERSION_MAJOR (.num 3),
          Call.glfwWindowHint .GLFW_CONTEXT_VERSION_MINOR (.num 3),
          Call.glfwWindowHint .GLFW_OPENGL_PROFILE (.sym .GLFW_OPENGL_CORE_PROFILE),
          Call.glfwCreateWindow 800 800 "Window Name" NULL NULL NULL,
          Call.cout "Failed to create GLFW window.",
          Call.glfwTerminate ])) ∧
    (env.window = NULL → ∀ fuel r tr, main sqrt env fuel = some (r, tr) →
      ∀ c ∈ tr, c.isContextActivation = false ∧ c.isLoader = false ∧ c.isGL = false ∧
        c.isSwap = false ∧ c.isPoll = false) ∧
    (∀ fuel r tr, main sqrt env fuel = some (r, tr) →
      (r = 0 ∧ env.window ≠ NULL) ∨ (r = -1 ∧ env.window = NULL)) := by
  have hfail : env.window = NULL → ∀ fuel,
      main sqrt env fuel = some (-1,
        [ Call.glfwInit,
          Call.glfwWindowHint .GLFW_CONTEXT_VERSION_MAJOR (.num 3),
          Call.glfwWindowHint .GLFW_CONTEXT_VERSION_MINOR (.num 3),
          Call.glfwWindowHint .GLFW_OPENGL_PROFILE (.sym .GLFW_OPENGL_CORE_PROFILE),
          Call.glfwCreateWindow 800 800 "Window Name" NULL NULL NULL,
          Call.cout "Failed to create GLFW window.",
          Call.glfwTerminate ]) := by
    intro hw fuel
    simp [main, hw, hints, createWindow, failure]
  refine ⟨?_, hfail, ?_, ?_⟩
  · intro hw n hn fuel hf
    obtain ⟨m, hm, hfirst⟩ := exists_firstTrueAt env.shouldClose n hn
    exact ⟨_, main_eq sqrt env m fuel hw hfirst (by omega)⟩
  · intro hw fuel r tr h
    rw [hfail hw fuel] at h
    simp only [Option.some.injEq, Prod.mk.injEq] at h
    rw [← h.2]
    simp [Call.isContextActivation, Call.isLoader, Call.isGL, Call.isSwap, Call.isPoll]
  · intro fuel r tr h
    by_cases hw : env.window = NULL
    · rw [hfail hw fuel] at h
      simp only [Option.some.injEq, Prod.mk.injEq] at h
      exact Or.inr ⟨h.1.symm, hw⟩
    · left
      refine ⟨?_, hw⟩
      simp only [main, hw, if_false] at h
      cases hloop : renderLoop F env fuel 0 with
      | none => simp [hloop] at h
      | some frames =>
        simp only [hloop, Option.some.injEq, Prod.mk.injEq] at h
        exact h.1.symm

/-- Claim C1 at two concrete environments: one whose window is created and
whose third reading is `true`, one whose window creation fails. -/
theorem C1_exit_codes_witness :
    (envTwoFrames.window ≠ NULL ∧ envTwoFrames.shouldClose 2 = true ∧
      ∃ tr, main Rat.sqrt envTwoFrames 3 = some (0, tr)) ∧
    (envNoWindow.window = NULL ∧
      main Rat.sqrt envNoWindow 0 = some (-1,
        [ Call.glfwInit,
          Call.glfwWindowHint .GLFW_CONTEXT_VERSION_MAJOR (.num 3),
          Call.glfwWindowHint .GLFW_CONTEXT_VERSION_MINOR (.num 3),
          Call.glfwWindowHint .GLFW_OPENGL_PROFILE (.sym .GLFW_OPENGL_CORE_PROFILE),
          Call.glfwCreateWindow 800 800 "Window Name" NULL NULL NULL,
          Call.cout "Failed to create GLFW window.",
          Call.glfwTerminate ])) :=
  ⟨⟨by decide, by decide,
      (C1_exit_codes Rat.sqrt envTwoFrames).1 (by decide) 2 (by decide) 3 (by decide)⟩,
    ⟨by decide, (C1_exit_codes Rat.sqrt envNoWindow).2.1 (by decide) 0⟩⟩

/-- Claim C3.  When the window is created and the first `true` reading of the
close flag is reading `n`, the trace is: a part with no `true` reading that
holds exactly `n` close-flag queries, `n` draw calls and `n` event polls and no
teardown call; then the `true` reading; then exactly the teardown sequence
(delete vertex array, delete buffer, delete program, destroy window,
terminate), once, after which nothing follows: no draw, swap, poll or further
close-flag query. -/
theorem C3_loop_until_first_true_then_teardown_once {F : Type} [Field F] (sqrt : F → F)
    (env : Env) (n fuel : Nat) (hw : env.window ≠ NULL)
    (hn : FirstTrueAt env.shouldClose n) (hf : n < fuel) :
    ∃ before,
      main sqrt env fuel = some (0,
        before ++ Call.glfwWindowShouldClose env.window true ::
          [ Call.glDeleteVertexArrays 1 [env.VAO],
            Call.glDeleteBuffers 1 [env.VBO],
            Call.glDeleteProgram env.shaderProgram,
            Call.glfwDestroyWindow env.window,
            Call.glfwTerminate ]) ∧
      (∀ c ∈ before, ∀ w, c ≠ Call.glfwWindowShouldClose w true) ∧
      before.countP Call.isCloseQuery = n ∧
      before.countP Call.isDraw = n ∧
      before.countP Call.isPoll = n ∧
      (∀ c ∈ before, c.isTeardown = false) := by
  refine ⟨startup sqrt env ++ loopFrames F env n, ?_, ?_, ?_, ?_, ?_, ?_⟩
  · rw [main_eq sqrt env n fuel hw hn hf]
    simp [successTrace, teardown]
  · intro c hc w heq
    rw [List.mem_append] at hc
    rcases hc with hc | hc
    · have := not_of_all Call.isCloseQuery (startup sqrt env) rfl c hc
      rw [heq] at this
      exact absurd this (by simp [Call.isCloseQuery])
    · exact forall_mem_loopFrames (P := fun c => c ≠ Call.glfwWindowShouldClose w true)
        (by simp [loopBody]) n c hc heq
  · have h1 : (startup sqrt env).countP Call.isCloseQuery = 0 := rfl
    have h2 : (Call.glfwWindowShouldClose env.window false :: loopBody F env).countP
        Call.isCloseQuery = 1 := rfl
    rw [List.countP_append, countP_loopFrames, h1, h2]
    omega
  · have h1 : (startup sqrt env).countP Call.isDraw = 0 := rfl
    have h2 : (Call.glfwWindowShouldClose env.window false :: loopBody F env).countP
        Call.isDraw = 1 := rfl
    rw [List.countP_append, countP_loopFrames, h1, h2]
    omega
  · have h1 : (startup sqrt env).countP Call.isPoll = 0 := rfl
    have h2 : (Call.glfwWindowShouldClose env.window false :: loopBody F env).countP
        Call.isPoll = 1 := rfl
    rw [List.countP_append, countP_loopFrames, h1, h2]
    omega
  · intro c hc
    rw [List.mem_append] at hc
    rcases hc with hc | hc
    · exact not_of_all Call.isTeardown (startup sqrt env) rfl c hc
    · exact forall_mem_loopFrames (P := fun c => c.isTeardown = false)
        (not_of_all Call.isTeardown _ rfl) n c hc

/-- Claim C3 at a concrete environment whose close flag reads `false`, `false`,
`true`: two iterations, then the teardown. -/
theorem C3_loop_until_first_true_then_teardown_once_witness :
    envTwoFrames.window ≠ NULL ∧ FirstTrueAt envTwoFrames.shouldClose 2 ∧ 2 < 3 ∧
    ∃ before,
      main Rat.sqrt envTwoFrames 3 = some (0,
        before ++ Call.glfwWindowShouldClose envTwoFrames.window true ::
          [ Call.glDeleteVertexArrays 1 [envTwoFrames.VAO],
            Call.glDeleteBuffers 1 [envTwoFrames.VBO],
            Call.glDeleteProgram envTwoFrames.shaderProgram,
            Call.glfwDestroyWindow envTwoFrames.window,
            Call.glfwTerminate ]) ∧
      (∀ c ∈ before, ∀ w, c ≠ Call.glfwWindowShouldClose w true) ∧
      before.countP Call.isCloseQuery = 2 ∧
      before.countP Call.isDraw = 2 ∧
      before.countP Call.isPoll = 2 ∧
      (∀ c ∈ before, c.isTeardown = false) :=
  ⟨by decide, by decide, by decide,
    C3_loop_until_first_true_then_teardown_once Rat.sqrt envTwoFrames 2 3
      (by decide) (by decide) (by decide)⟩

/-- Claim C4.  The trace of a successful run with `n` iterations is a setup
without close-flag query, then `n` copies of: close flag reads `false`,
`glClearColor(0.07, 0.13, 0.17, 1.0)`, `glClear(GL_COLOR_BUFFER_BIT)`,
`glUseProgram(shaderProgram)`, `glBindVertexArray(VAO)`,
`glDrawArrays(GL_TRIANGLES, 0, 3)`, `glfwSwapBuffers`, `glfwPollEvents`; then
the `true` reading and the teardown.  The program was created and linked and
the vertex array generated in the setup, and at every draw call the current
program is that program, the current vertex array is that vertex array, and no
program or vertex array has been deleted so far. -/
theorem C4_frame_call_sequence {F : Type} [Field F] (sqrt : F → F)
    (env : Env) (n fuel : Nat) (hw : env.window ≠ NULL)
    (hn : FirstTrueAt env.shouldClose n) (hf : n < fuel) :
    ∃ setup tr,
      main sqrt env fuel = some (0, tr) ∧
      tr = setup ++
        (List.replicate n
          [ Call.glfwWindowShouldClose env.window false,
            Call.glClearColor 0.07 0.13 0.17 1.0,
            Call.glClear .GL_COLOR_BUFFER_BIT,
            Call.glUseProgram env.shaderProgram,
            Call.glBindVertexArray env.VAO,
            Call.glDrawArrays .GL_TRIANGLES 0 3,
            Call.glfwSwapBuffers env.window,
            Call.glfwPollEvents ]).flatten ++
        Call.glfwWindowShouldClose env.window true :: teardown F env ∧
      (∀ c ∈ setup, c.isCloseQuery = false ∧ c.isProgramOrLayoutDelete = false) ∧
      Call.glCreateProgram env.shaderProgram ∈ setup ∧
      Call.glLinkProgram env.shaderProgram ∈ setup ∧
      Call.glGenVertexArrays 1 [env.VAO] ∈ setup ∧
      (∀ pre c post, tr = pre ++ c :: post → c.isDraw = true →
        c = Call.glDrawArrays .GL_TRIANGLES 0 3 ∧
        (run Bindings.fresh pre).currentProgram = env.shaderProgram ∧
        (run Bindings.fresh pre).vertexArray = env.VAO ∧
        (∀ d ∈ pre, d.isProgramOrLayoutDelete = false)) := by
  have hsetup : ∀ c ∈ startup sqrt env,
      c.isCloseQuery = false ∧ c.isProgramOrLayoutDelete = false := fun c hc =>
    ⟨not_of_all Call.isCloseQuery (startup sqrt env) rfl c hc,
      not_of_all Call.isProgramOrLayoutDelete (startup sqrt env) rfl c hc⟩
  refine ⟨startup sqrt env, successTrace sqrt env n, main_eq sqrt env n fuel hw hn hf,
    ?_, hsetup, ?_, ?_, ?_, ?_⟩
  · simp [successTrace, loopFrames, loopBody]
  · simp [startup, shaders]
  · simp [startup, shaders]
  · simp [startup, geometry]
  · intro pre c post h hc
    obtain ⟨k, _, hck, hpre⟩ := draw_split sqrt env n pre c post h hc
    refine ⟨hck, ?_, ?_, ?_⟩
    · rw [hpre]; simp [run_append, run_cons, run_nil, step]
    · rw [hpre]; simp [run_append, run_cons, run_nil, step]
    · intro d hd
      rw [hpre, List.mem_append, List.mem_append] at hd
      rcases hd with (hd | hd) | hd
      · exact (hsetup d hd).2
      · exact forall_mem_loopFrames (P := fun c => c.isProgramOrLayoutDelete = false)
          (not_of_all Call.isProgramOrLayoutDelete _ rfl) k d hd
      · revert d
        simp [Call.isProgramOrLayoutDelete]

/-- Claim C4 at a concrete environment with two iterations. -/
theorem C4_frame_call_sequence_witness :
    envTwoFrames.window ≠ NULL ∧ FirstTrueAt envTwoFrames.shouldClose 2 ∧ 2 < 3 ∧
    ∃ setup tr,
      main Rat.sqrt envTwoFrames 3 = some (0, tr) ∧
      tr = setup ++
        (List.replicate 2
          [ Call.glfwWindowShouldClose envTwoFrames.window false,
            Call.glClearColor 0.07 0.13 0.17 1.0,
            Call.glClear .GL_COLOR_BUFFER_BIT,
            Call.glUseProgram envTwoFrames.shaderProgram,
            Call.glBindVertexArray envTwoFrames.VAO,
            Call.glDrawArrays .GL_TRIANGLES 0 3,
            Call.glfwSwapBuffers envTwoFrames.window,
            Call.glfwPollEvents ]).flatten ++
        Call.glfwWindowShouldClose envTwoFrames.window true :: teardown ℚ envTwoFrames ∧
      (∀ c ∈ setup, c.isCloseQuery = false ∧ c.isProgramOrLayoutDelete = false) ∧
      Call.glCreateProgram envTwoFrames.shaderProgram ∈ setup ∧
      Call.glLinkProgram envTwoFrames.shaderProgram ∈ setup ∧
      Call.glGenVertexArrays 1 [envTwoFrames.VAO] ∈ setup ∧
      (∀ pre c post, tr = pre ++ c :: post → c.isDraw = true →
        c = Call.glDrawArrays .GL_TRIANGLES 0 3 ∧
        (run Bindings.fresh pre).currentProgram = envTwoFrames.shaderProgram ∧
        (run Bindings.fresh pre).vertexArray = envTwoFrames.VAO ∧
        (∀ d ∈ pre, d.isProgramOrLayoutDelete = false)) :=
  ⟨by decide, by decide, by decide,
    C4_frame_call_sequence Rat.sqrt envTwoFrames 2 3 (by decide) (by decide) (by decide)⟩

/-- Claim C6.  Tracking the current vertex array and array buffer along the
trace of a successful run, from a fresh context: every `glBindBuffer` is
issued while the created vertex array is current and the first one is issued
while no buffer is current yet; every attribute registration
(`glVertexAttribPointer`, `glEnableVertexAttribArray`) is issued while the
created vertex array and the created buffer are both current, and there are
exactly two such calls; the buffer is unbound first and the vertex array
second, after which both bindings are 0; and at the first close-flag query,
where the render loop is entered, both bindings are 0. -/
theorem C6_binding_order {F : Type} [Field F] (sqrt : F → F)
    (env : Env) (n fuel : Nat) (hw : env.window ≠ NULL)
    (hn : FirstTrueAt env.shouldClose n) (hf : n < fuel) :
    ∃ tr,
      main sqrt env fuel = some (0, tr) ∧
      (∀ pre c post, tr = pre ++ c :: post → c.isBindBuffer = true →
        (run Bindings.fresh pre).vertexArray = env.VAO) ∧
      (∀ pre c post, tr = pre ++ c :: post → c.isBindBuffer = true →
        (∀ d ∈ pre, d.isBindBuffer = false) →
        c = Call.glBindBuffer .GL_ARRAY_BUFFER env.VBO ∧
        (run Bindings.fresh pre).arrayBuffer = 0) ∧
      (∀ pre c post, tr = pre ++ c :: post → c.isAttribRegistration = true →
        (run Bindings.fresh pre).vertexArray = env.VAO ∧
        (run Bindings.fresh pre).arrayBuffer = env.VBO) ∧
      tr.countP Call.isAttribRegistration = 2 ∧
      (∃ pre post,
        tr = pre ++ Call.glBindBuffer .GL_ARRAY_BUFFER 0 :: Call.glBindVertexArray 0 :: post ∧
        (run Bindings.fresh pre).vertexArray = env.VAO ∧
        (run Bindings.fresh pre).arrayBuffer = env.VBO ∧
        (run Bindings.fresh (pre ++ [Call.glBindBuffer .GL_ARRAY_BUFFER 0])).vertexArray
          = env.VAO ∧
        (run Bindings.fresh (pre ++ [Call.glBindBuffer .GL_ARRAY_BUFFER 0])).arrayBuffer = 0 ∧
        (run Bindings.fresh (pre ++ [Call.glBindBuffer .GL_ARRAY_BUFFER 0,
          Call.glBindVertexArray 0])).vertexArray = 0 ∧
        (run Bindings.fresh (pre ++ [Call.glBindBuffer .GL_ARRAY_BUFFER 0,
          Call.glBindVertexArray 0])).arrayBuffer = 0 ∧
        (∀ d ∈ post, d.isAttribRegistration = false)) ∧
      (∀ pre c post, tr = pre ++ c :: post → c.isCloseQuery = true →
        (∀ d ∈ pre, d.isCloseQuery = false) →
        (run Bindings.fresh pre).vertexArray = 0 ∧
        (run Bindings.fresh pre).arrayBuffer = 0) := by
  refine ⟨successTrace sqrt env n, main_eq sqrt env n fuel hw hn hf, ?_, ?_, ?_, ?_, ?_, ?_⟩
  · intro pre c post h hc
    obtain ⟨m, m', hg, hpre⟩ := geometry_split Call.isBindBuffer sqrt env n pre c post
      (not_of_all Call.isBindBuffer _ rfl) (not_of_all Call.isBindBuffer _ rfl)
      (not_of_all Call.isBindBuffer _ rfl) (not_of_all Call.isBindBuffer _ rfl) h hc
    rw [hpre, run_append, run_before_geometry]
    have hs := mem_splits m _ c m' hg
    simp only [geometry, splits, List.map, List.mem_cons, List.not_mem_nil, or_false,
      Prod.mk.injEq] at hs
    rcases hs with hs | hs | hs | hs | hs | hs | hs | hs | hs <;>
      obtain ⟨rfl, rfl, rfl⟩ := hs <;>
      simp [Call.isBindBuffer, run, step, Bindings.fresh] at hc ⊢
  · intro pre c post h hc hfirst
    obtain ⟨m, m', hg, hpre⟩ := geometry_split Call.isBindBuffer sqrt env n pre c post
      (not_of_all Call.isBindBuffer _ rfl) (not_of_all Call.isBindBuffer _ rfl)
      (not_of_all Call.isBindBuffer _ rfl) (not_of_all Call.isBindBuffer _ rfl) h hc
    have hm : ∀ d ∈ m, d.isBindBuffer = false := fun d hd =>
      hfirst d (by rw [hpre]; exact List.mem_append_right _ hd)
    rw [hpre, run_append, run_before_geometry]
    have hs := mem_splits m _ c m' hg
    simp only [geometry, splits, List.map, List.mem_cons, List.not_mem_nil, or_false,
      Prod.mk.injEq] at hs
    rcases hs with hs | hs | hs | hs | hs | hs | hs | hs | hs <;>
      obtain ⟨rfl, rfl, rfl⟩ := hs <;>
      simp [Call.isBindBuffer, run, step, Bindings.fresh] at hc hm ⊢
  · intro pre c post h hc
    obtain ⟨m, m', hg, hpre⟩ := geometry_split Call.isAttribRegistration sqrt env n pre c post
      (not_of_all Call.isAttribRegistration _ rfl) (not_of_all Call.isAttribRegistration _ rfl)
      (not_of_all Call.isAttribRegistration _ rfl) (not_of_all Call.isAttribRegistration _ rfl) h hc
    rw [hpre, run_append, run_before_geometry]
    have hs := mem_splits m _ c m' hg
    simp only [geometry, splits, List.map, List.mem_cons, List.not_mem_nil, or_false,
      Prod.mk.injEq] at hs
    rcases hs with hs | hs | hs | hs | hs | hs | hs | hs | hs <;>
      obtain ⟨rfl, rfl, rfl⟩ := hs <;>
      simp [Call.isAttribRegistration, run, step, Bindings.fresh] at hc ⊢
  · have h1 : (startup sqrt env).countP Call.isAttribRegistration = 2 := rfl
    have h2 : (Call.glfwWindowShouldClose env.window false :: loopBody F env).countP
        Call.isAttribRegistration = 0 := rfl
    have h3 : (Call.glfwWindowShouldClose env.window true :: teardown F env).countP
        Call.isAttribRegistration = 0 := rfl
    rw [countP_successTrace, h1, h2, h3]
    omega
  · refine ⟨hints F ++ [createWindow F env] ++ context F env ++ shaders F env ++
        [ Call.glGenVertexArrays 1 [env.VAO],
          Call.glGenBuffers 1 [env.VBO],
          Call.glBindVertexArray env.VAO,
          Call.glBindBuffer .GL_ARRAY_BUFFER env.VBO,
          Call.glBufferData .GL_ARRAY_BUFFER (sizeofVertices sqrt) (vertices sqrt) .GL_STATIC_DRAW,
          Call.glVertexAttribPointer 0 3 .GL_FLOAT .GL_FALSE (3 * sizeofFloat) 0,
          Call.glEnableVertexAttribArray 0 ],
      firstFrame F env ++ (loopFrames F env n ++ [Call.glfwWindowShouldClose env.window true])
        ++ teardown F env, ?_, ?_, ?_, ?_, ?_, ?_, ?_, ?_⟩
    · simp [successTrace, startup, geometry]
    · rw [run_append, run_before_geometry]; simp [run, step, Bindings.fresh]
    · rw [run_append, run_before_geometry]; simp [run, step, Bindings.fresh]
    · rw [run_append, run_append, run_before_geometry]; simp [run, step, Bindings.fresh]
    · rw [run_append, run_append, run_before_geometry]; simp [run, step, Bindings.fresh]
    · rw [run_append, run_append, run_before_geometry]; simp [run, step, Bindings.fresh]
    · rw [run_append, run_append, run_before_geometry]; simp [run, step, Bindings.fresh]
    · intro d hd
      rw [List.mem_append, List.mem_append, List.mem_append] at hd
      rcases hd with (hd | hd | hd) | hd
      · exact not_of_all Call.isAttribRegistration (firstFrame F env) rfl d hd
      · exact forall_mem_loopFrames (P := fun c => c.isAttribRegistration = false)
          (not_of_all Call.isAttribRegistration _ rfl) n d hd
      · exact not_of_all Call.isAttribRegistration
          [Call.glfwWindowShouldClose env.window true] rfl d hd
      · exact not_of_all Call.isAttribRegistration (teardown F env) rfl d hd
  · intro pre c post h hc hfirst
    have hstart : ∀ x ∈ startup sqrt env, Call.isCloseQuery x = false :=
      not_of_all Call.isCloseQuery (startup sqrt env) rfl
    have hrun : run Bindings.fresh (startup sqrt env) = Bindings.fresh := rfl
    have hpre : pre = startup sqrt env := by
      cases n with
      | zero =>
        have h0 : successTrace sqrt env 0 = startup sqrt env ++
            Call.glfwWindowShouldClose env.window true :: teardown F env := by
          simp [successTrace, loopFrames_zero]
        rw [h0] at h
        exact (split_first Call.isCloseQuery _ (teardown F env) pre post
          (Call.glfwWindowShouldClose env.window true) c hstart hfirst rfl hc h).1
      | succ k =>
        have h0 : successTrace sqrt env (k + 1) = startup sqrt env ++
            Call.glfwWindowShouldClose env.window false ::
              (loopBody F env ++ loopFrames F env k ++
                [Call.glfwWindowShouldClose env.window true] ++ teardown F env) := by
          simp [successTrace, loopFrames_succ]
        rw [h0] at h
        exact (split_first Call.isCloseQuery _ _ pre post
          (Call.glfwWindowShouldClose env.window false) c hstart hfirst rfl hc h).1
    rw [hpre, hrun]
    exact ⟨rfl, rfl⟩

/-- Claim C6 at a concrete environment with two iterations. -/
theorem C6_binding_order_witness :
    envTwoFrames.window ≠ NULL ∧ FirstTrueAt envTwoFrames.shouldClose 2 ∧ 2 < 3 ∧
    ∃ tr,
      main Rat.sqrt envTwoFrames 3 = some (0, tr) ∧
      (∀ pre c post, tr = pre ++ c :: post → c.isAttribRegistration = true →
        (run Bindings.fresh pre).vertexArray = envTwoFrames.VAO ∧
        (run Bindings.fresh pre).arrayBuffer = envTwoFrames.VBO) ∧
      tr.countP Call.isAttribRegistration = 2 ∧
      (∀ pre c post, tr = pre ++ c :: post → c.isCloseQuery = true →
        (∀ d ∈ pre, d.isCloseQuery = false) →
        (run Bindings.fresh pre).vertexArray = 0 ∧
        (run Bindings.fresh pre).arrayBuffer = 0) := by
  obtain ⟨tr, h1, _, _, h4, h5, _, h7⟩ :=
    C6_binding_order Rat.sqrt envTwoFrames 2 3 (by decide) (by decide) (by decide)
  exact ⟨by decide, by decide, by decide, tr, h1, h4, h5, h7⟩

/-- Claim C7.  On a successful run the buffer store is written by exactly one
call, `glBufferData(GL_ARRAY_BUFFER, 36, vertices, GL_STATIC_DRAW)` with the 9
floats of `vertices`, issued while the created buffer is current; the only
attribute descriptor is slot 0, 3 float components, not normalised, stride 12
= 3 * sizeof(float), start 0; every draw call draws vertices 0, 1, 2 and there
are `n` of them; and the bytes fetched for vertex `i` are those from
`i * 12` up to `i * 12 + 12`, which end within the 36 bytes for `i < 3` and
together are exactly the bytes below 36. -/
theorem C7_single_upload_fetches_in_bounds {F : Type} [Field F] (sqrt : F → F)
    (env : Env) (n fuel : Nat) (hw : env.window ≠ NULL)
    (hn : FirstTrueAt env.shouldClose n) (hf : n < fuel) :
    ∃ tr,
      main sqrt env fuel = some (0, tr) ∧
      tr.filter Call.isBufferWrite =
        [Call.glBufferData .GL_ARRAY_BUFFER 36 (vertices sqrt) .GL_STATIC_DRAW] ∧
      (vertices sqrt).length = 9 ∧
      sizeofFloat = 4 ∧
      (∀ pre c post, tr = pre ++ c :: post → c.isBufferWrite = true →
        (run Bindings.fresh pre).arrayBuffer = env.VBO ∧
        (run Bindings.fresh pre).vertexArray = env.VAO) ∧
      tr.filter Call.isAttribPointer =
        [Call.glVertexAttribPointer 0 3 .GL_FLOAT .GL_FALSE 12 0] ∧
      12 = 3 * sizeofFloat ∧
      (∀ c ∈ tr, c.isDraw = true → c = Call.glDrawArrays .GL_TRIANGLES 0 3) ∧
      tr.countP Call.isDraw = n ∧
      (∀ i, i < 3 →
        (fetchRange 3 12 0 i).1 = 0 + i * 12 ∧
        (fetchRange 3 12 0 i).2 = 0 + i * 12 + 12 ∧
        (fetchRange 3 12 0 i).2 ≤ 36) ∧
      (∀ b, b < 36 ↔ ∃ i, i < 3 ∧ (fetchRange 3 12 0 i).1 ≤ b ∧ b < (fetchRange 3 12 0 i).2) := by
  refine ⟨successTrace sqrt env n, main_eq sqrt env n fuel hw hn hf,
    ?_, ?_, rfl, ?_, ?_, rfl, ?_, ?_, ?_, ?_⟩
  · simp only [successTrace, List.filter_append]
    rw [filter_loopFrames _ env (not_of_all Call.isBufferWrite _ rfl)]
    rfl
  · rfl
  · intro pre c post h hc
    obtain ⟨m, m', hg, hpre⟩ := geometry_split Call.isBufferWrite sqrt env n pre c post
      (not_of_all Call.isBufferWrite _ rfl) (not_of_all Call.isBufferWrite _ rfl)
      (not_of_all Call.isBufferWrite _ rfl) (not_of_all Call.isBufferWrite _ rfl) h hc
    rw [hpre, run_append, run_before_geometry]
    have hs := mem_splits m _ c m' hg
    simp only [geometry, splits, List.map, List.mem_cons, List.not_mem_nil, or_false,
      Prod.mk.injEq] at hs
    rcases hs with hs | hs | hs | hs | hs | hs | hs | hs | hs <;>
      obtain ⟨rfl, rfl, rfl⟩ := hs <;>
      simp [Call.isBufferWrite, run, step, Bindings.fresh] at hc ⊢
  · simp only [successTrace, List.filter_append]
    rw [filter_loopFrames _ env (not_of_all Call.isAttribPointer _ rfl)]
    rfl
  · intro c hc hd
    obtain ⟨pre, post, hsplit⟩ := List.append_of_mem hc
    exact (draw_split sqrt env n pre c post hsplit hd).choose_spec.2.1
  · have h1 : (startup sqrt env).countP Call.isDraw = 0 := rfl
    have h2 : (Call.glfwWindowShouldClose env.window false :: loopBody F env).countP
        Call.isDraw = 1 := rfl
    have h3 : (Call.glfwWindowShouldClose env.window true :: teardown F env).countP
        Call.isDraw = 0 := rfl
    rw [countP_successTrace, h1, h2, h3]
    omega
  · intro i hi
    refine ⟨rfl, rfl, ?_⟩
    show 0 + i * 12 + 3 * 4 ≤ 36
    omega
  · intro b
    constructor
    · intro hb
      refine ⟨b / 12, ?_, ?_, ?_⟩
      · omega
      · show 0 + b / 12 * 12 ≤ b
        omega
      · show b < 0 + b / 12 * 12 + 3 * 4
        omega
    · rintro ⟨i, hi, _, h2⟩
      have h3 : b < 0 + i * 12 + 3 * 4 := h2
      omega

/-- Claim C7 at a concrete environment with two iterations. -/
theorem C7_single_upload_fetches_in_bounds_witness :
    envTwoFrames.window ≠ NULL ∧ FirstTrueAt envTwoFrames.shouldClose 2 ∧ 2 < 3 ∧
    ∃ tr,
      main Rat.sqrt envTwoFrames 3 = some (0, tr) ∧
      tr.filter Call.isBufferWrite =
        [Call.glBufferData .GL_ARRAY_BUFFER 36 (vertices Rat.sqrt) .GL_STATIC_DRAW] ∧
      tr.filter Call.isAttribPointer =
        [Call.glVertexAttribPointer 0 3 .GL_FLOAT .GL_FALSE 12 0] ∧
      (∀ c ∈ tr, c.isDraw = true → c = Call.glDrawArrays .GL_TRIANGLES 0 3) ∧
      tr.countP Call.isDraw = 2 := by
  obtain ⟨tr, h1, h2, _, _, _, h6, _, h8, h9, _⟩ :=
    C7_single_upload_fetches_in_bounds Rat.sqrt envTwoFrames 2 3
      (by decide) (by decide) (by decide)
  exact ⟨by decide, by decide, by decide, tr, h1, h2, h6, h8, h9⟩

/-- Claim C8.  On a successful run the calls that build shaders and programs
are one block of the trace: create the vertex shader, give it the vertex
source, compile it; create the fragment shader, give it the fragment source,
compile it; create the program, attach the vertex shader, attach the fragment
shader, link; delete the vertex shader, delete the fragment shader.  No such
call occurs before or after the block, no draw call occurs before or inside
it, and no status query occurs anywhere in the trace. -/
theorem C8_shader_build_sequence {F : Type} [Field F] (sqrt : F → F)
    (env : Env) (n fuel : Nat) (hw : env.window ≠ NULL)
    (hn : FirstTrueAt env.shouldClose n) (hf : n < fuel) :
    ∃ pre post tr,
      main sqrt env fuel = some (0, tr) ∧
      tr = pre ++
        [ Call.glCreateShader .GL_VERTEX_SHADER env.vertexShader,
          Call.glShaderSource env.vertexShader 1 [vertexShaderSource] NULL,
          Call.glCompileShader env.vertexShader,
          Call.glCreateShader .GL_FRAGMENT_SHADER env.fragmentShader,
          Call.glShaderSource env.fragmentShader 1 [fragmentShaderSource] NULL,
          Call.glCompileShader env.fragmentShader,
          Call.glCreateProgram env.shaderProgram,
          Call.glAttachShader env.shaderProgram env.vertexShader,
          Call.glAttachShader env.shaderProgram env.fragmentShader,
          Call.glLinkProgram env.shaderProgram,
          Call.glDeleteShader env.vertexShader,
          Call.glDeleteShader env.fragmentShader ] ++ post ∧
      (∀ c ∈ pre, c.isShaderBuild = false ∧ c.isDraw = false) ∧
      (∀ c ∈ post, c.isShaderBuild = false) ∧
      post.countP Call.isDraw = n ∧
      (∀ c ∈ tr, c.isStatusQuery = false) := by
  refine ⟨hints F ++ [createWindow F env] ++ context F env,
    geometry sqrt env ++ firstFrame F env ++
      (loopFrames F env n ++ [Call.glfwWindowShouldClose env.window true]) ++ teardown F env,
    successTrace sqrt env n, main_eq sqrt env n fuel hw hn hf, ?_, ?_, ?_, ?_, ?_⟩
  · simp [successTrace, startup, shaders]
  · intro c hc
    exact ⟨not_of_all Call.isShaderBuild (hints F ++ [createWindow F env] ++ context F env)
        rfl c hc,
      not_of_all Call.isDraw (hints F ++ [createWindow F env] ++ context F env) rfl c hc⟩
  · intro c hc
    rw [List.mem_append, List.mem_append, List.mem_append, List.mem_append] at hc
    rcases hc with ((hc | hc) | hc | hc) | hc
    · exact not_of_all Call.isShaderBuild (geometry sqrt env) rfl c hc
    · exact not_of_all Call.isShaderBuild (firstFrame F env) rfl c hc
    · exact forall_mem_loopFrames (P := fun c => c.isShaderBuild = false)
        (not_of_all Call.isShaderBuild _ rfl) n c hc
    · exact not_of_all Call.isShaderBuild
        [Call.glfwWindowShouldClose env.window true] rfl c hc
    · exact not_of_all Call.isShaderBuild (teardown F env) rfl c hc
  · have h1 : (geometry sqrt env).countP Call.isDraw = 0 := rfl
    have h2 : (firstFrame F env).countP Call.isDraw = 0 := rfl
    have h3 : (Call.glfwWindowShouldClose env.window false :: loopBody F env).countP
        Call.isDraw = 1 := rfl
    have h4 : [Call.glfwWindowShouldClose env.window true].countP (Call.isDraw (F := F)) = 0 :=
      rfl
    have h5 : (teardown F env).countP Call.isDraw = 0 := rfl
    simp only [List.countP_append, countP_loopFrames, h1, h2, h3, h4, h5]
    omega
  · exact forall_mem_successTrace sqrt env n (fun c => c.isStatusQuery = false)
      (not_of_all Call.isStatusQuery _ rfl) (not_of_all Call.isStatusQuery _ rfl)
      (not_of_all Call.isStatusQuery _ rfl)

/-- Claim C8 at a concrete environment with two iterations. -/
theorem C8_shader_build_sequence_witness :
    envTwoFrames.window ≠ NULL ∧ FirstTrueAt envTwoFrames.shouldClose 2 ∧ 2 < 3 ∧
    ∃ pre post tr,
      main Rat.sqrt envTwoFrames 3 = some (0, tr) ∧
      tr = pre ++
        [ Call.glCreateShader .GL_VERTEX_SHADER envTwoFrames.vertexShader,
          Call.glShaderSource envTwoFrames.vertexShader 1 [vertexShaderSource] NULL,
          Call.glCompileShader envTwoFrames.vertexShader,
          Call.glCreateShader .GL_FRAGMENT_SHADER envTwoFrames.fragmentShader,
          Call.glShaderSource envTwoFrames.fragmentShader 1 [fragmentShaderSource] NULL,
          Call.glCompileShader envTwoFrames.fragmentShader,
          Call.glCreateProgram envTwoFrames.shaderProgram,
          Call.glAttachShader envTwoFrames.shaderProgram envTwoFrames.vertexShader,
          Call.glAttachShader envTwoFrames.shaderProgram envTwoFrames.fragmentShader,
          Call.glLinkProgram envTwoFrames.shaderProgram,
          Call.glDeleteShader envTwoFrames.vertexShader,
          Call.glDeleteShader envTwoFrames.fragmentShader ] ++ post ∧
      (∀ c ∈ pre, c.isShaderBuild = false ∧ c.isDraw = false) ∧
      (∀ c ∈ post, c.isShaderBuild = false) ∧
      post.countP Call.isDraw = 2 ∧
      (∀ c ∈ tr, c.isStatusQuery = false) :=
  ⟨by decide, by decide, by decide,
    C8_shader_build_sequence Rat.sqrt envTwoFrames 2 3 (by decide) (by decide) (by decide)⟩

/-- Claim C9.  On a successful run the first close-flag query is immediately
preceded by `glClearColor(0.07, 0.13, 0.17, 1.0)`, `glClear(GL_COLOR_BUFFER_BIT)`,
`glfwSwapBuffers`, and before these three calls there is no clear, no swap, no
draw, no event poll and no close-flag query.  Every `glClearColor` call of the
run has these same arguments and every `glClear` call clears the colour
buffer.  A run with `n` iterations performs `n + 1` clears and `n + 1` swaps,
and `n` draws and `n` polls. -/
theorem C9_one_clear_and_swap_before_the_loop {F : Type} [Field F] (sqrt : F → F)
    (env : Env) (n fuel : Nat) (hw : env.window ≠ NULL)
    (hn : FirstTrueAt env.shouldClose n) (hf : n < fuel) :
    ∃ pre post tr,
      main sqrt env fuel = some (0, tr) ∧
      tr = pre ++
        [ Call.glClearColor 0.07 0.13 0.17 1.0,
          Call.glClear .GL_COLOR_BUFFER_BIT,
          Call.glfwSwapBuffers env.window,
          Call.glfwWindowShouldClose env.window (env.shouldClose 0) ] ++ post ∧
      (∀ c ∈ pre, c.isClearColor = false ∧ c.isClear = false ∧ c.isSwap = false ∧
        c.isDraw = false ∧ c.isPoll = false ∧ c.isCloseQuery = false) ∧
      (∀ c ∈ tr, c.isClearColor = true → c = Call.glClearColor 0.07 0.13 0.17 1.0) ∧
      (∀ c ∈ tr, c.isClear = true → c = Call.glClear .GL_COLOR_BUFFER_BIT) ∧
      tr.countP Call.isClear = n + 1 ∧
      tr.countP Call.isSwap = n + 1 ∧
      tr.countP Call.isDraw = n ∧
      tr.countP Call.isPoll = n := by
  have hmem := forall_mem_successTrace sqrt env n
  refine ⟨hints F ++ [createWindow F env] ++ context F env ++ shaders F env ++ geometry sqrt env,
    (if n = 0 then [] else loopBody F env ++ loopFrames F env (n - 1) ++
      [Call.glfwWindowShouldClose env.window true]) ++ teardown F env,
    successTrace sqrt env n, main_eq sqrt env n fuel hw hn hf, ?_, ?_, ?_, ?_, ?_, ?_, ?_, ?_⟩
  · cases n with
    | zero =>
      have h0 : env.shouldClose 0 = true := hn.1
      simp [successTrace, startup, firstFrame, loopFrames_zero, h0]
    | succ k =>
      have h0 : env.shouldClose 0 = false := hn.2 0 (by omega)
      simp [successTrace, startup, firstFrame, loopFrames_succ, h0]
  · have hnone : ∀ p : Call F → Bool,
        (hints F ++ [createWindow F env] ++ context F env ++ shaders F env ++
          geometry sqrt env).all (fun c => !p c) = true →
        ∀ c ∈ hints F ++ [createWindow F env] ++ context F env ++ shaders F env ++
          geometry sqrt env, p c = false := fun p h => not_of_all p _ h
    intro c hc
    exact ⟨hnone Call.isClearColor rfl c hc, hnone Call.isClear rfl c hc,
      hnone Call.isSwap rfl c hc, hnone Call.isDraw rfl c hc,
      hnone Call.isPoll rfl c hc, hnone Call.isCloseQuery rfl c hc⟩
  · apply hmem
    · simp [startup, hints, createWindow, context, shaders, geometry, firstFrame,
        Call.isClearColor]
    · simp [loopBody, Call.isClearColor]
    · simp [teardown, Call.isClearColor]
  · apply hmem
    · simp [startup, hints, createWindow, context, shaders, geometry, firstFrame, Call.isClear]
    · simp [loopBody, Call.isClear]
    · simp [teardown, Call.isClear]
  · have h1 : (startup sqrt env).countP Call.isClear = 1 := rfl
    have h2 : (Call.glfwWindowShouldClose env.window false :: loopBody F env).countP
        Call.isClear = 1 := rfl
    have h3 : (Call.glfwWindowShouldClose env.window true :: teardown F env).countP
        Call.isClear = 0 := rfl
    rw [countP_successTrace, h1, h2, h3]
    omega
  · have h1 : (startup sqrt env).countP Call.isSwap = 1 := rfl
    have h2 : (Call.glfwWindowShouldClose env.window false :: loopBody F env).countP
        Call.isSwap = 1 := rfl
    have h3 : (Call.glfwWindowShouldClose env.window true :: teardown F env).countP
        Call.isSwap = 0 := rfl
    rw [countP_successTrace, h1, h2, h3]
    omega
  · have h1 : (startup sqrt env).countP Call.isDraw = 0 := rfl
    have h2 : (Call.glfwWindowShouldClose env.window false :: loopBody F env).countP
        Call.isDraw = 1 := rfl
    have h3 : (Call.glfwWindowShouldClose env.window true :: teardown F env).countP
        Call.isDraw = 0 := rfl
    rw [countP_successTrace, h1, h2, h3]
    omega
  · have h1 : (startup sqrt env).countP Call.isPoll = 0 := rfl
    have h2 : (Call.glfwWindowShouldClose env.window false :: loopBody F env).countP
        Call.isPoll = 1 := rfl
    have h3 : (Call.glfwWindowShouldClose env.window true :: teardown F env).countP
        Call.isPoll = 0 := rfl
    rw [countP_successTrace, h1, h2, h3]
    omega

/-- Claim C9 at a concrete environment with two iterations. -/
theorem C9_one_clear_and_swap_before_the_loop_witness :
    envTwoFrames.window ≠ NULL ∧ FirstTrueAt envTwoFrames.shouldClose 2 ∧ 2 < 3 ∧
    ∃ pre post tr,
      main Rat.sqrt envTwoFrames 3 = some (0, tr) ∧
      tr = pre ++
        [ Call.glClearColor 0.07 0.13 0.17 1.0,
          Call.glClear .GL_COLOR_BUFFER_BIT,
          Call.glfwSwapBuffers envTwoFrames.window,
          Call.glfwWindowShouldClose envTwoFrames.window (envTwoFrames.shouldClose 0) ] ++ post ∧
      (∀ c ∈ pre, c.isClearColor = false ∧ c.isClear = false ∧ c.isSwap = false ∧
        c.isDraw = false ∧ c.isPoll = false ∧ c.isCloseQuery = false) ∧
      (∀ c ∈ tr, c.isClearColor = true → c = Call.glClearColor 0.07 0.13 0.17 1.0) ∧
      (∀ c ∈ tr, c.isClear = true → c = Call.glClear .GL_COLOR_BUFFER_BIT) ∧
      tr.countP Call.isClear = 2 + 1 ∧
      tr.countP Call.isSwap = 2 + 1 ∧
      tr.countP Call.isDraw = 2 ∧
      tr.countP Call.isPoll = 2 :=
  ⟨by decide, by decide, by decide,
    C9_one_clear_and_swap_before_the_loop Rat.sqrt envTwoFrames 2 3
      (by decide) (by decide) (by decide)⟩

end CPPNotebook
